import Mathlib

/-!
# SlimeVR-Feeder-App: tracker state machine, slot resolver, tick loop, config file

A shallow embedding of `src/main.cpp`.

* Mutable members become explicit state: a member function returns the new
  object together with the list of messages it handed to
  `bridge.sendMessage`, oldest first.
* Console output (`fmt::print`) is not part of the model, except for the
  warning of `Tracker::SetIndex`, which `Tracker.SetIndexWarning` gives.
* Signed 64-bit counts are integers with no result on overflow; `size_t`
  arithmetic is taken modulo `2 ^ 64`.
* The VR runtime (`IVRSystem`, `IVRInput`) is an oracle: a record of the
  answers it gives during one pass.
* `float` and `double` values are held as their IEEE-754 bit patterns, and
  `!=` on them is the IEEE comparison.
-/

namespace SlimeVRFeeder

/-! ## Scalars -/

/-- A C++ `float` (IEEE-754 binary32), held as its bit pattern. -/
abbrev float := Nat

/-- A C++ `double` (IEEE-754 binary64), held as its bit pattern. -/
abbrev double := Nat

/-- Whether the bit pattern `x` of a format with `e` exponent bits and `f`
fraction bits is a NaN: exponent all ones, fraction non-zero. -/
def ieeeIsNaN (e f x : Nat) : Bool :=
  (x / 2 ^ f) % 2 ^ e == 2 ^ e - 1 && x % 2 ^ f != 0

/-- Whether the bit pattern `x` is a zero of either sign. -/
def ieeeIsZero (e f x : Nat) : Bool :=
  x % 2 ^ (e + f) == 0

/-- The C++ operator `!=` on floating-point values: a NaN differs from
everything, the two zeros do not differ, any other two values differ exactly
when their bit patterns do. -/
def ieeeNe (e f a b : Nat) : Bool :=
  ieeeIsNaN e f a || ieeeIsNaN e f b ||
    !((ieeeIsZero e f a && ieeeIsZero e f b) || a % 2 ^ (e + f + 1) == b % 2 ^ (e + f + 1))

/-- Operator `!=` on `float`. -/
def float_ne (a b : float) : Bool := ieeeNe 8 23 a b

/-- Operator `!=` on `double`. -/
def double_ne (a b : double) : Bool := ieeeNe 11 52 a b

/-! ## OpenVR types (the members that `main.cpp` reads) -/

/-- The type `HmdQuaternion_t`: four `double`s. -/
structure HmdQuaternion_t where
  w : double
  x : double
  y : double
  z : double
  deriving DecidableEq, Repr

/-- The type `HmdVector3_t`: `float v[3]`. -/
structure HmdVector3_t where
  v0 : float
  v1 : float
  v2 : float
  deriving DecidableEq, Repr

/-- The type `HmdMatrix34_t`: `float m[3][4]`. -/
structure HmdMatrix34_t where
  m : Fin 3 → Fin 4 → float

/-- The enumeration `ETrackingResult`. -/
inductive ETrackingResult where
  | TrackingResult_Uninitialized
  | TrackingResult_Calibrating_InProgress
  | TrackingResult_Calibrating_OutOfRange
  | TrackingResult_Running_OK
  | TrackingResult_Running_OutOfRange
  | TrackingResult_Fallback_RotationOnly
  deriving DecidableEq, Repr

/-- The type `TrackedDevicePose_t`. -/
structure TrackedDevicePose_t where
  mDeviceToAbsoluteTracking : HmdMatrix34_t
  eTrackingResult : ETrackingResult
  bPoseIsValid : Bool
  bDeviceIsConnected : Bool

/-- A device index, `TrackedDeviceIndex_t` (`uint32_t`). -/
abbrev TrackedDeviceIndex_t := Nat

/-- The constant `k_unTrackedDeviceIndexInvalid` of `openvr.h`. -/
def k_unTrackedDeviceIndexInvalid : TrackedDeviceIndex_t := 0xFFFFFFFF

/-- The constant `k_unMaxTrackedDeviceCount` of `openvr.h`. -/
def k_unMaxTrackedDeviceCount : Nat := 64

/-- The two helpers of `matrix_utils.h` that `Tracker::Update` calls. The
header is not among the sources, so they are parameters of the model. -/
structure MatrixUtils where
  GetRotation : HmdMatrix34_t → HmdQuaternion_t
  GetPosition : HmdMatrix34_t → HmdVector3_t

/-! ## Messages handed to the bridge -/

/-- The enumerators of `messages::TrackerStatus_Status` that `main.cpp` sends. -/
inductive TrackerStatus_Status where
  | TrackerStatus_Status_OK
  | TrackerStatus_Status_DISCONNECTED
  | TrackerStatus_Status_OCCLUDED
  | TrackerStatus_Status_ERROR
  deriving DecidableEq, Repr

/-- The enumerators of `messages::Position_DataSource` that `main.cpp` sends. -/
inductive Position_DataSource where
  | Position_DataSource_IMU
  | Position_DataSource_FULL
  deriving DecidableEq, Repr

/-- The message `messages::TrackerStatus`, with the fields `SendStatus` sets. -/
structure TrackerStatus where
  status : TrackerStatus_Status
  tracker_id : TrackedDeviceIndex_t
  deriving DecidableEq, Repr

/-- The message `messages::Position`, with the fields `Update` sets; each
scalar is the value passed to the setter. -/
structure Position where
  x : float
  y : float
  z : float
  qw : double
  qx : double
  qy : double
  qz : double
  tracker_id : TrackedDeviceIndex_t
  data_source : Position_DataSource
  deriving DecidableEq, Repr

/-- The message `messages::TrackerAdded`, with the fields `SetIndex` sets;
`tracker_serial` is set only when a serial is available. -/
structure TrackerAdded where
  tracker_id : TrackedDeviceIndex_t
  tracker_role : Int
  tracker_name : String
  tracker_serial : Option String
  deriving DecidableEq, Repr

/-- The message `messages::UserAction`. -/
structure UserAction where
  name : String
  deriving DecidableEq, Repr

/-- The message `messages::ProtobufMessage`: one of the four kinds. -/
inductive ProtobufMessage where
  | position (p : Position)
  | user_action (a : UserAction)
  | tracker_added (a : TrackerAdded)
  | tracker_status (s : TrackerStatus)
  deriving DecidableEq, Repr

/-! ## class Tracker -/

/-- The data members of `class Tracker` (the bridge reference is the message
list that the member functions return). -/
structure Tracker where
  current_rotation : HmdQuaternion_t
  current_position : HmdVector3_t
  index : TrackedDeviceIndex_t
  current_valid : Bool
  deriving DecidableEq, Repr

/-- The value `{ 0 }` of `HmdQuaternion_t`. -/
def HmdQuaternion_t.zero : HmdQuaternion_t := ⟨0, 0, 0, 0⟩

/-- The value `{ 0 }` of `HmdVector3_t`. -/
def HmdVector3_t.zero : HmdVector3_t := ⟨0, 0, 0⟩

/-- The constructor `Tracker(bridge)`: the default member initialisers. -/
def Tracker.new : Tracker :=
  { current_rotation := HmdQuaternion_t.zero
    current_position := HmdVector3_t.zero
    index := k_unTrackedDeviceIndexInvalid
    current_valid := false }

/-- The member `Tracker::SendStatus`: one status message carrying the stored index. -/
def Tracker.SendStatus (t : Tracker) (status_val : TrackerStatus_Status) :
    List ProtobufMessage :=
  [ProtobufMessage.tracker_status { status := status_val, tracker_id := t.index }]

/-- The position message that `Tracker::Update` builds from the stored pose. -/
def Tracker.positionMessage (t : Tracker) (pose : TrackedDevicePose_t) : ProtobufMessage :=
  ProtobufMessage.position
    { x := t.current_position.v0
      y := t.current_position.v1
      z := t.current_position.v2
      qw := t.current_rotation.w
      qx := t.current_rotation.x
      qy := t.current_rotation.y
      qz := t.current_rotation.z
      tracker_id := t.index
      data_source :=
        if pose.eTrackingResult = ETrackingResult.TrackingResult_Fallback_RotationOnly
        then Position_DataSource.Position_DataSource_IMU
        else Position_DataSource.Position_DataSource_FULL }

/-- The first statement of `Tracker::Update`, `if (pose.bPoseIsValid) { ... }`. -/
def Tracker.UpdateValid (U : MatrixUtils) (t : Tracker) (pose : TrackedDevicePose_t)
    (just_connected : Bool) : Tracker × List ProtobufMessage :=
  if pose.bPoseIsValid then
    let r1 : Tracker × List ProtobufMessage :=
      if !t.current_valid then
        let t1 := { t with current_valid := true }
        (t1, t1.SendStatus TrackerStatus_Status.TrackerStatus_Status_OK)
      else (t, [])
    let t1 := r1.1
    let new_rotation := U.GetRotation pose.mDeviceToAbsoluteTracking
    let new_position := U.GetPosition pose.mDeviceToAbsoluteTracking
    if just_connected ||
        double_ne t1.current_rotation.w new_rotation.w ||
        double_ne t1.current_rotation.x new_rotation.x ||
        double_ne t1.current_rotation.y new_rotation.y ||
        double_ne t1.current_rotation.z new_rotation.z ||
        float_ne t1.current_position.v0 new_position.v0 ||
        float_ne t1.current_position.v1 new_position.v1 ||
        float_ne t1.current_position.v2 new_position.v2 then
      let t2 := { t1 with current_position := new_position, current_rotation := new_rotation }
      (t2, r1.2 ++ [t2.positionMessage pose])
    else (t1, r1.2)
  else (t, [])

/-- The second statement of `Tracker::Update`,
`if (current_valid && !pose.bPoseIsValid || just_connected) { ... }`. -/
def Tracker.UpdateStatus (t : Tracker) (pose : TrackedDevicePose_t)
    (just_connected : Bool) : Tracker × List ProtobufMessage :=
  if (t.current_valid && !pose.bPoseIsValid) || just_connected then
    let t1 := { t with
      current_valid := false
      current_position := HmdVector3_t.zero
      current_rotation := HmdQuaternion_t.zero }
    if !pose.bDeviceIsConnected then
      (t1, t1.SendStatus TrackerStatus_Status.TrackerStatus_Status_DISCONNECTED)
    else if pose.eTrackingResult = ETrackingResult.TrackingResult_Running_OutOfRange then
      (t1, t1.SendStatus TrackerStatus_Status.TrackerStatus_Status_OCCLUDED)
    else
      (t1, t1.SendStatus TrackerStatus_Status.TrackerStatus_Status_ERROR)
  else (t, [])

/-- The member `Tracker::Update`: the two statements in sequence. -/
def Tracker.Update (U : MatrixUtils) (t : Tracker) (pose : TrackedDevicePose_t)
    (just_connected : Bool) : Tracker × List ProtobufMessage :=
  let r1 := t.UpdateValid U pose just_connected
  let r2 := r1.1.UpdateStatus pose just_connected
  (r2.1, r1.2 ++ r2.2)

/-- One tracker fed a run of samples, each with `just_connected = false`, as
the pose pass does tick after tick: the final record and every message sent. -/
def Tracker.UpdateRun (U : MatrixUtils) (t : Tracker) :
    List TrackedDevicePose_t → Tracker × List ProtobufMessage
  | [] => (t, [])
  | pose :: rest =>
    let r1 := t.Update U pose false
    let r2 := Tracker.UpdateRun U r1.1 rest
    (r2.1, r1.2 ++ r2.2)

/-! ## Role tables -/

/-- The enumerator `BodyPosition::BodyPosition_Count`. -/
abbrev BodyPosition_Count : Nat := 13

/-- The enumeration `BodyPosition`, as its underlying value `0 .. 12`. -/
abbrev BodyPosition := Fin BodyPosition_Count

/-- The enumerator `BodyPosition::Head`. -/
def BodyPosition.Head : BodyPosition := 0
/-- The enumerator `BodyPosition::LeftHand`. -/
def BodyPosition.LeftHand : BodyPosition := 1
/-- The enumerator `BodyPosition::RightHand`. -/
def BodyPosition.RightHand : BodyPosition := 2
/-- The enumerator `BodyPosition::LeftFoot`. -/
def BodyPosition.LeftFoot : BodyPosition := 3
/-- The enumerator `BodyPosition::RightFoot`. -/
def BodyPosition.RightFoot : BodyPosition := 4
/-- The enumerator `BodyPosition::LeftShoulder`. -/
def BodyPosition.LeftShoulder : BodyPosition := 5
/-- The enumerator `BodyPosition::RightShoulder`. -/
def BodyPosition.RightShoulder : BodyPosition := 6
/-- The enumerator `BodyPosition::LeftElbow`. -/
def BodyPosition.LeftElbow : BodyPosition := 7
/-- The enumerator `BodyPosition::RightElbow`. -/
def BodyPosition.RightElbow : BodyPosition := 8
/-- The enumerator `BodyPosition::LeftKnee`. -/
def BodyPosition.LeftKnee : BodyPosition := 9
/-- The enumerator `BodyPosition::RightKnee`. -/
def BodyPosition.RightKnee : BodyPosition := 10
/-- The enumerator `BodyPosition::Waist`. -/
def BodyPosition.Waist : BodyPosition := 11
/-- The enumerator `BodyPosition::Chest`. -/
def BodyPosition.Chest : BodyPosition := 12

/-- The enumeration `SlimeVRPosition`. -/
inductive SlimeVRPosition where
  | None
  | Waist
  | LeftFoot
  | RightFoot
  | Chest
  | LeftKnee
  | RightKnee
  | LeftElbow
  | RightElbow
  | LeftShoulder
  | RightShoulder
  | LeftHand
  | RightHand
  | LeftController
  | RightController
  | Head
  | Neck
  | Camera
  | Keyboard
  | HMD
  | Beacon
  | GenericController
  deriving DecidableEq, Repr

/-- The cast `(int)` of a `SlimeVRPosition`: `None = 0`, then counting up. -/
def SlimeVRPosition.toInt : SlimeVRPosition → Int
  | .None => 0
  | .Waist => 1
  | .LeftFoot => 2
  | .RightFoot => 3
  | .Chest => 4
  | .LeftKnee => 5
  | .RightKnee => 6
  | .LeftElbow => 7
  | .RightElbow => 8
  | .LeftShoulder => 9
  | .RightShoulder => 10
  | .LeftHand => 11
  | .RightHand => 12
  | .LeftController => 13
  | .RightController => 14
  | .Head => 15
  | .Neck => 16
  | .Camera => 17
  | .Keyboard => 18
  | .HMD => 19
  | .Beacon => 20
  | .GenericController => 21

/-- The table `positionIDs`, in the order of its initialiser. -/
def positionIDsTable : List SlimeVRPosition :=
  [ SlimeVRPosition.Head,
    SlimeVRPosition.LeftController,
    SlimeVRPosition.RightController,
    SlimeVRPosition.LeftFoot,
    SlimeVRPosition.RightFoot,
    SlimeVRPosition.LeftShoulder,
    SlimeVRPosition.RightShoulder,
    SlimeVRPosition.LeftElbow,
    SlimeVRPosition.RightElbow,
    SlimeVRPosition.LeftKnee,
    SlimeVRPosition.RightKnee,
    SlimeVRPosition.Waist,
    SlimeVRPosition.Chest ]

/-- The lookup `positionIDs[(int)pos]`. -/
def positionIDs (pos : BodyPosition) : SlimeVRPosition :=
  positionIDsTable.getD pos.val SlimeVRPosition.None

/-- The member `Tracker::SetIndex`. The two providers are called only inside
the branch that announces. -/
def Tracker.SetIndex (t : Tracker) (idx : TrackedDeviceIndex_t) (pos : BodyPosition)
    (get_name : Unit → String) (get_serial : Unit → Option String) (send_anyway : Bool) :
    Tracker × List ProtobufMessage :=
  if t.index != idx || send_anyway then
    let t1 := { t with index := idx }
    let name := get_name ()
    let serial := get_serial ()
    (t1, [ProtobufMessage.tracker_added
      { tracker_id := t1.index
        tracker_role := (positionIDs pos).toInt
        tracker_name := name
        tracker_serial := serial }])
  else (t, [])

/-! ## The VR runtime as an oracle -/

/-- An action handle, `VRActionHandle_t` (`uint64_t`). -/
abbrev VRActionHandle_t := Nat

/-- An origin handle, `VRInputValueHandle_t` (`uint64_t`). -/
abbrev VRInputValueHandle_t := Nat

/-- The constant `k_ulInvalidInputValueHandle` of `openvr.h`. -/
def k_ulInvalidInputValueHandle : VRInputValueHandle_t := 0

/-- The enumeration `EVRInputError`: success, or any other code. -/
inductive EVRInputError where
  | VRInputError_None
  | VRInputError_Other (code : Nat)
  deriving DecidableEq, Repr

/-- The enumeration `ETrackedPropertyError`: the two enumerators that
`GetStringProp` tests, or any other code. -/
inductive ETrackedPropertyError where
  | TrackedProp_Success
  | TrackedProp_BufferTooSmall
  | TrackedProp_Other (code : Nat)
  deriving DecidableEq, Repr

/-- The enumerators of `ETrackedDeviceProperty` that `main.cpp` queries. -/
inductive ETrackedDeviceProperty where
  | Prop_TrackingSystemName_String
  | Prop_ControllerType_String
  | Prop_SerialNumber_String
  deriving DecidableEq, Repr

/-- The type `InputPoseActionData_t`. -/
structure InputPoseActionData_t where
  bActive : Bool
  activeOrigin : VRInputValueHandle_t
  pose : TrackedDevicePose_t

/-- The type `InputOriginInfo_t` (the member that `GetIndex` reads). -/
structure InputOriginInfo_t where
  trackedDeviceIndex : TrackedDeviceIndex_t
  deriving DecidableEq, Repr

/-- The type `InputDigitalActionData_t`. -/
structure InputDigitalActionData_t where
  bActive : Bool
  activeOrigin : VRInputValueHandle_t
  bState : Bool
  bChanged : Bool
  fUpdateTime : float
  deriving DecidableEq, Repr

/-- What one call of `IVRSystem::GetStringTrackedDeviceProperty` does: its
return value, the characters it wrote to the caller's buffer, and the error
it stored. -/
structure StringPropertyReply where
  size : Nat
  written : List Char
  error : ETrackedPropertyError

/-- The answers of `IVRSystem` during one pass. -/
structure IVRSystem where
  GetStringTrackedDeviceProperty :
    TrackedDeviceIndex_t → ETrackedDeviceProperty → Nat → StringPropertyReply
  GetDeviceToAbsoluteTrackingPose : Fin k_unMaxTrackedDeviceCount → TrackedDevicePose_t

/-- The answers of `IVRInput` during one pass. -/
structure IVRInput where
  UpdateActionState : EVRInputError
  GetPoseActionDataRelativeToNow : VRActionHandle_t → EVRInputError × InputPoseActionData_t
  GetOriginTrackedDeviceInfo : VRInputValueHandle_t → EVRInputError × InputOriginInfo_t
  GetDigitalActionData : VRActionHandle_t → EVRInputError × InputDigitalActionData_t

/-! ## struct OpenVRStuff -/

/-- The mutable members of `struct OpenVRStuff`: the two role-indexed arrays. -/
structure OpenVRStuff where
  value_handles : BodyPosition → VRInputValueHandle_t
  trackers : BodyPosition → Tracker

/-- The constructor `OpenVRStuff(bridge)`: no handle stored, thirteen fresh trackers. -/
def OpenVRStuff.new : OpenVRStuff :=
  { value_handles := fun _ => k_ulInvalidInputValueHandle
    trackers := fun _ => Tracker.new }

/-- A loop `for (jjj ...)` over the roles listed, in order, with a body that
always completes: the final state and the messages of all iterations. -/
def OpenVRStuff.forRoles (body : BodyPosition → OpenVRStuff → OpenVRStuff × List ProtobufMessage) :
    List BodyPosition → OpenVRStuff → OpenVRStuff × List ProtobufMessage
  | [], s => (s, [])
  | jjj :: rest, s =>
    let r1 := body jjj s
    let r2 := OpenVRStuff.forRoles body rest r1.1
    (r2.1, r1.2 ++ r2.2)

/-- The same loop with a body that may have no defined result. -/
def OpenVRStuff.forRolesOpt
    (body : BodyPosition → OpenVRStuff → Option (OpenVRStuff × List ProtobufMessage)) :
    List BodyPosition → OpenVRStuff → Option (OpenVRStuff × List ProtobufMessage)
  | [], s => some (s, [])
  | jjj :: rest, s =>
    match body jjj s with
    | none => none
    | some r1 =>
      match OpenVRStuff.forRolesOpt body rest r1.1 with
      | none => none
      | some r2 => some (r2.1, r1.2 ++ r2.2)

/-- The member `OpenVRStuff::GetStringProp`. The buffer is `size` NUL
characters, overwritten from its start by the second call and then cut to
`size - 1`. -/
def OpenVRStuff.GetStringProp (system : IVRSystem) (index : TrackedDeviceIndex_t)
    (prop : ETrackedDeviceProperty) : Option String :=
  let r0 := system.GetStringTrackedDeviceProperty index prop 0
  let size := r0.size
  if size == 0 || (r0.error != ETrackedPropertyError.TrackedProp_Success &&
      r0.error != ETrackedPropertyError.TrackedProp_BufferTooSmall) then
    none
  else
    let r1 := system.GetStringTrackedDeviceProperty index prop size
    let buffer := (r1.written ++ List.replicate size (Char.ofNat 0)).take size
    let prop_value := String.mk (buffer.take (size - 1))
    if r1.error != ETrackedPropertyError.TrackedProp_Success then none
    else some prop_value

/-- The member `OpenVRStuff::GetIndex`. -/
def OpenVRStuff.GetIndex (input : IVRInput) (value_handle : VRInputValueHandle_t) :
    Option TrackedDeviceIndex_t :=
  let r := input.GetOriginTrackedDeviceInfo value_handle
  if r.1 != EVRInputError.VRInputError_None then none
  else some r.2.trackedDeviceIndex

/-- The body of the loop of `OpenVRStuff::Tick` for role `jjj`. Reading
`device_poses` past its end has no defined result: `none`. -/
def OpenVRStuff.TickBody (U : MatrixUtils) (system : IVRSystem) (input : IVRInput)
    (just_connected : Bool) (jjj : BodyPosition) (s : OpenVRStuff) :
    Option (OpenVRStuff × List ProtobufMessage) :=
  let activeOrigin := s.value_handles jjj
  if activeOrigin = k_ulInvalidInputValueHandle then some (s, [])
  else
    match OpenVRStuff.GetIndex input activeOrigin with
    | none =>
      some ({ s with value_handles :=
        Function.update s.value_handles jjj k_ulInvalidInputValueHandle }, [])
    | some trackedDeviceIndex =>
      if h : trackedDeviceIndex < k_unMaxTrackedDeviceCount then
        let pose := system.GetDeviceToAbsoluteTrackingPose ⟨trackedDeviceIndex, h⟩
        let r := (s.trackers jjj).Update U pose just_connected
        some ({ s with trackers := Function.update s.trackers jjj r.1 }, r.2)
      else none

/-- The member `OpenVRStuff::Tick`: `jjj` runs from `0` to `BodyPosition_Count - 1`. -/
def OpenVRStuff.Tick (U : MatrixUtils) (system : IVRSystem) (input : IVRInput)
    (s : OpenVRStuff) (just_connected : Bool) :
    Option (OpenVRStuff × List ProtobufMessage) :=
  OpenVRStuff.forRolesOpt (OpenVRStuff.TickBody U system input just_connected)
    (List.finRange BodyPosition_Count) s

/-- The body of the loop of `OpenVRStuff::UpdateValueHandles` for role `jjj`. -/
def OpenVRStuff.UpdateValueHandlesBody (system : IVRSystem) (input : IVRInput)
    (actions : BodyPosition → VRActionHandle_t) (just_connected : Bool)
    (jjj : BodyPosition) (s : OpenVRStuff) : OpenVRStuff × List ProtobufMessage :=
  let r := input.GetPoseActionDataRelativeToNow (actions jjj)
  let pose := r.2
  if r.1 != EVRInputError.VRInputError_None then (s, [])
  else if pose.bActive then
    if s.value_handles jjj != pose.activeOrigin || just_connected then
      let s1 := { s with value_handles := Function.update s.value_handles jjj pose.activeOrigin }
      match OpenVRStuff.GetIndex input pose.activeOrigin with
      | none => (s1, [])
      | some trackedDeviceIndex =>
        let driver := OpenVRStuff.GetStringProp system trackedDeviceIndex
          ETrackedDeviceProperty.Prop_TrackingSystemName_String
        if driver = some "SlimeVR" then (s1, [])
        else
          let get_name : Unit → String := fun _ =>
            match OpenVRStuff.GetStringProp system trackedDeviceIndex
              ETrackedDeviceProperty.Prop_ControllerType_String with
            | some controller_type => controller_type
            | none => "Index" ++ toString trackedDeviceIndex
          let get_serial : Unit → Option String := fun _ =>
            OpenVRStuff.GetStringProp system trackedDeviceIndex
              ETrackedDeviceProperty.Prop_SerialNumber_String
          let r1 := (s1.trackers jjj).SetIndex trackedDeviceIndex jjj get_name get_serial
            just_connected
          ({ s1 with trackers := Function.update s1.trackers jjj r1.1 }, r1.2)
    else (s, [])
  else (s, [])

/-- The member `OpenVRStuff::UpdateValueHandles`. -/
def OpenVRStuff.UpdateValueHandles (system : IVRSystem) (input : IVRInput)
    (s : OpenVRStuff) (actions : BodyPosition → VRActionHandle_t) (just_connected : Bool) :
    OpenVRStuff × List ProtobufMessage :=
  if input.UpdateActionState != EVRInputError.VRInputError_None then (s, [])
  else
    OpenVRStuff.forRoles (OpenVRStuff.UpdateValueHandlesBody system input actions just_connected)
      (List.finRange BodyPosition_Count) s

/-- The member `OpenVRStuff::HandleDigitalActionBool`: the returned optional
and the messages sent. -/
def OpenVRStuff.HandleDigitalActionBool (input : IVRInput) (action_handle : VRActionHandle_t)
    (server_name : Option String) : Option InputDigitalActionData_t × List ProtobufMessage :=
  let r := input.GetDigitalActionData action_handle
  let action_data := r.2
  if r.1 = EVRInputError.VRInputError_None then
    let falling_edge := false
    if action_data.bChanged && (xor action_data.bState falling_edge) && server_name.isSome then
      (some action_data,
        (server_name.map fun value => ProtobufMessage.user_action { name := value }).toList)
    else (some action_data, [])
  else (none, [])

/-! ## Helpers for stating the properties -/

/-- The statuses of the status messages in a message list, in order. -/
def statuses : List ProtobufMessage → List TrackerStatus_Status
  | [] => []
  | ProtobufMessage.tracker_status st :: rest => st.status :: statuses rest
  | _ :: rest => statuses rest

/-- The status chosen by the chain `if (!pose.bDeviceIsConnected) ... else if
(... Running_OutOfRange) ... else ...` of `Tracker::Update`, read off a sample. -/
def lostStatus (pose : TrackedDevicePose_t) : TrackerStatus_Status :=
  if pose.bDeviceIsConnected = false then TrackerStatus_Status.TrackerStatus_Status_DISCONNECTED
  else if pose.eTrackingResult = ETrackingResult.TrackingResult_Running_OutOfRange then
    TrackerStatus_Status.TrackerStatus_Status_OCCLUDED
  else TrackerStatus_Status.TrackerStatus_Status_ERROR

/-! ## Concrete inputs for the examples -/

/-- An instance of the `matrix_utils.h` parameters for the examples: the
position is the translation column, the rotation is always the identity
quaternion `(1, 0, 0, 0)`. -/
def exampleUtils : MatrixUtils :=
  { GetRotation := fun _ => ⟨0x3FF0000000000000, 0, 0, 0⟩
    GetPosition := fun mat => ⟨mat.m 0 3, mat.m 1 3, mat.m 2 3⟩ }

/-- A transform with translation `(x, y, z)` and zeros elsewhere. -/
def exampleMatrix (x y z : float) : HmdMatrix34_t :=
  ⟨fun i j => if j = 3 then (if i = 0 then x else if i = 1 then y else z) else 0⟩

/-- A valid sample of a connected device at position `(1.0f, 2.0f, 3.0f)`. -/
def exampleValidPose : TrackedDevicePose_t :=
  { mDeviceToAbsoluteTracking := exampleMatrix 0x3F800000 0x40000000 0x40400000
    eTrackingResult := ETrackingResult.TrackingResult_Running_OK
    bPoseIsValid := true
    bDeviceIsConnected := true }

/-- An invalid sample of a disconnected device. -/
def exampleLostPose : TrackedDevicePose_t :=
  { mDeviceToAbsoluteTracking := exampleMatrix 0 0 0
    eTrackingResult := ETrackingResult.TrackingResult_Running_OutOfRange
    bPoseIsValid := false
    bDeviceIsConnected := false }

/-- A tracker for device 3 whose last-sent pose is that of `exampleValidPose`. -/
def exampleSentTracker : Tracker :=
  { current_rotation := ⟨0x3FF0000000000000, 0, 0, 0⟩
    current_position := ⟨0x3F800000, 0x40000000, 0x40400000⟩
    index := 3
    current_valid := true }

/-- A tracker for device 3 in the valid state whose last-sent pose is all zero. -/
def exampleMovedTracker : Tracker :=
  { current_rotation := HmdQuaternion_t.zero
    current_position := HmdVector3_t.zero
    index := 3
    current_valid := true }

/-- An invalid sample of a device that is not connected, as the runtime
reports for an empty device slot. -/
def exampleEmptyPose : TrackedDevicePose_t :=
  { mDeviceToAbsoluteTracking := exampleMatrix 0 0 0
    eTrackingResult := ETrackingResult.TrackingResult_Uninitialized
    bPoseIsValid := false
    bDeviceIsConnected := false }

/-- The action handles of the examples: role `j` has handle `100 + j`. -/
def exampleActions : BodyPosition → VRActionHandle_t := fun j => 100 + j.val

/-- The string properties of the devices of the examples: device 3 is a
lighthouse tracker with a controller type and a serial; device 5 is a tracker
of the `SlimeVR` driver and device 7 one of the `oculus` driver, both without
controller type or serial. -/
def exampleProperty (index : TrackedDeviceIndex_t) (prop : ETrackedDeviceProperty) :
    Option String :=
  if index = 3 then
    match prop with
    | ETrackedDeviceProperty.Prop_TrackingSystemName_String => some "lighthouse"
    | ETrackedDeviceProperty.Prop_ControllerType_String => some "ViveTracker"
    | ETrackedDeviceProperty.Prop_SerialNumber_String => some "LHR-0001"
  else if index = 5 then
    match prop with
    | ETrackedDeviceProperty.Prop_TrackingSystemName_String => some "SlimeVR"
    | _ => none
  else if index = 7 then
    match prop with
    | ETrackedDeviceProperty.Prop_TrackingSystemName_String => some "oculus"
    | _ => none
  else none

/-- A runtime for the examples. A string property answers with its length plus
one, and writes the string and its terminator when the buffer is large enough;
devices 3 and 5 report the valid sample, every other slot is empty. -/
def exampleSystem : IVRSystem :=
  { GetStringTrackedDeviceProperty := fun index prop bufferSize =>
      match exampleProperty index prop with
      | none =>
        { size := 0, written := [], error := ETrackedPropertyError.TrackedProp_Other 4 }
      | some value =>
        if bufferSize < value.length + 1 then
          { size := value.length + 1, written := []
            error := ETrackedPropertyError.TrackedProp_BufferTooSmall }
        else
          { size := value.length + 1, written := value.data ++ [Char.ofNat 0]
            error := ETrackedPropertyError.TrackedProp_Success }
    GetDeviceToAbsoluteTrackingPose := fun i =>
      if i.val = 3 ∨ i.val = 5 then exampleValidPose else exampleEmptyPose }

/-- The input system of the examples. The pose query fails for `Head` (handle
100); `LeftFoot` (103) is active with origin 1001, which resolves to device 3;
`RightFoot` (104) is active with origin 1002, which resolves to device 5;
`LeftKnee` (109) is active with origin 1003, which does not resolve; `Chest`
(112) is active with origin 1004, which resolves to device 7; every other role
is inactive. Digital action 200 was just pressed, 201 just
released, 202 is held unchanged, and any other digital query fails. -/
def exampleInput : IVRInput :=
  { UpdateActionState := EVRInputError.VRInputError_None
    GetPoseActionDataRelativeToNow := fun action =>
      if action = 100 then
        (EVRInputError.VRInputError_Other 3,
          { bActive := false, activeOrigin := 0, pose := exampleEmptyPose })
      else if action = 103 then
        (EVRInputError.VRInputError_None,
          { bActive := true, activeOrigin := 1001, pose := exampleValidPose })
      else if action = 104 then
        (EVRInputError.VRInputError_None,
          { bActive := true, activeOrigin := 1002, pose := exampleValidPose })
      else if action = 109 then
        (EVRInputError.VRInputError_None,
          { bActive := true, activeOrigin := 1003, pose := exampleEmptyPose })
      else if action = 112 then
        (EVRInputError.VRInputError_None,
          { bActive := true, activeOrigin := 1004, pose := exampleEmptyPose })
      else
        (EVRInputError.VRInputError_None,
          { bActive := false, activeOrigin := 0, pose := exampleEmptyPose })
    GetOriginTrackedDeviceInfo := fun origin =>
      if origin = 1001 then (EVRInputError.VRInputError_None, { trackedDeviceIndex := 3 })
      else if origin = 1002 then (EVRInputError.VRInputError_None, { trackedDeviceIndex := 5 })
      else if origin = 1004 then (EVRInputError.VRInputError_None, { trackedDeviceIndex := 7 })
      else (EVRInputError.VRInputError_Other 3, { trackedDeviceIndex := 0 })
    GetDigitalActionData := fun action =>
      if action = 200 then
        (EVRInputError.VRInputError_None,
          { bActive := true, activeOrigin := 1001, bState := true, bChanged := true
            fUpdateTime := 0 })
      else if action = 201 then
        (EVRInputError.VRInputError_None,
          { bActive := true, activeOrigin := 1001, bState := false, bChanged := true
            fUpdateTime := 0 })
      else if action = 202 then
        (EVRInputError.VRInputError_None,
          { bActive := true, activeOrigin := 1001, bState := true, bChanged := false
            fUpdateTime := 0 })
      else
        (EVRInputError.VRInputError_Other 3,
          { bActive := false, activeOrigin := 0, bState := false, bChanged := false
            fUpdateTime := 0 }) }

/-- The input system of the examples with the action-state update failing. -/
def exampleFailedInput : IVRInput :=
  { exampleInput with UpdateActionState := EVRInputError.VRInputError_Other 8 }

/-! ## The tick loop of main -/

/-- The smallest count of `std::chrono::nanoseconds` (signed, 64 bits). -/
def INT64_MIN : Int := -(2 ^ 63)

/-- The largest count of `std::chrono::nanoseconds` (signed, 64 bits). -/
def INT64_MAX : Int := 2 ^ 63 - 1

/-- The result of a signed 64-bit operation whose exact value is `v`: the
value itself when it is representable, and no defined result otherwise. -/
def int64 (v : Int) : Option Int :=
  if INT64_MIN ≤ v ∧ v ≤ INT64_MAX then some v else none

/-- The initialiser of `tick_ns`, `1'000'000'000 / tps.Get()`: a division of
32-bit unsigned integers, without a defined result when `tps` is zero. -/
def tick_ns (tps : Nat) : Option Int :=
  if tps % 2 ^ 32 = 0 then none
  else some (((1000000000 / (tps % 2 ^ 32) : Nat) : Int))

/-- What one iteration of the event loop does, as far as the scheduling goes:
it runs the pass, and then either sleeps or yields. -/
inductive LoopEvent where
  | pass
  | sleep_for (wait_ns : Int)
  | yield
  deriving DecidableEq, Repr

/-- One iteration of the event loop of `main`: the pass, `next_tick +=
tick_ns`, the clock read as `now`, and the sleep or yield. The result is the
new `next_tick` and what the iteration did. -/
def loopIteration (tick_ns next_tick now : Int) : Option (Int × List LoopEvent) :=
  match int64 (next_tick + tick_ns) with
  | none => none
  | some next_tick1 =>
    match int64 (next_tick1 - now) with
    | none => none
    | some wait_ns =>
      if wait_ns > 0 then some (next_tick1, [LoopEvent.pass, LoopEvent.sleep_for wait_ns])
      else some (next_tick1, [LoopEvent.pass, LoopEvent.yield])

/-- The event loop of `main` run for as many iterations as there are clock
readings, the reading of each iteration being the one it takes after the
pass. -/
def eventLoop (tick_ns : Int) : Int → List Int → Option (Int × List LoopEvent)
  | next_tick, [] => some (next_tick, [])
  | next_tick, now :: rest =>
    match loopIteration tick_ns next_tick now with
    | none => none
    | some r1 =>
      match eventLoop tick_ns r1.1 rest with
      | none => none
      | some r2 => some (r2.1, r1.2 ++ r2.2)

/-- The scheduling of `main` from the line that computes `tick_ns`: `tps` is
the configured rate, `start` the clock value that initialises `next_tick`. -/
def mainSchedule (tps : Nat) (start : Int) (nows : List Int) :
    Option (Int × List LoopEvent) :=
  match tick_ns tps with
  | none => none
  | some period => eventLoop period start nows

/-! ## The config file of main -/

/-- A `std::string`, as the list of its characters. -/
abbrev std_string := List Char

/-- The constant `std::string::npos`, the largest `size_t`. -/
def npos : Nat := 2 ^ 64 - 1

/-- The call `line.find("#")` and its like for a one-character needle: the
index of the first occurrence from index `i` on, or `npos`. -/
def std_string.findFrom (c : Char) : std_string → Nat → Nat
  | [], _ => npos
  | d :: rest, i => if d = c then i else std_string.findFrom c rest (i + 1)

/-- The call `line.find(c)` for a one-character needle. -/
def std_string.find (line : std_string) (c : Char) : Nat :=
  std_string.findFrom c line 0

/-- The search of `find_first_not_of` from index `i` on. -/
def std_string.firstNotOfFrom (set : List Char) : std_string → Nat → Nat
  | [], _ => npos
  | d :: rest, i => if d ∈ set then std_string.firstNotOfFrom set rest (i + 1) else i

/-- The call `line.find_first_not_of(set)`: the index of the first character
that is none of `set`, or `npos`. -/
def std_string.find_first_not_of (line : std_string) (set : List Char) : Nat :=
  std_string.firstNotOfFrom set line 0

/-- The search of `find_last_not_of` downwards from index `i`. -/
def std_string.lastNotOfFrom (line : std_string) (set : List Char) : Nat → Nat
  | 0 => if line.getD 0 (Char.ofNat 0) ∈ set then npos else 0
  | i + 1 =>
    if line.getD (i + 1) (Char.ofNat 0) ∈ set then std_string.lastNotOfFrom line set i
    else i + 1

/-- The call `line.find_last_not_of(set, pos)`: the index of the last
character at or before `pos` that is none of `set`, or `npos`. -/
def std_string.find_last_not_of (line : std_string) (set : List Char) (pos : Nat) : Nat :=
  if line.length = 0 then npos
  else std_string.lastNotOfFrom line set (min pos (line.length - 1))

/-- The call `line.substr(pos, count)`: it throws, here `none`, when `pos` is
past the end. -/
def std_string.substr (line : std_string) (pos count : Nat) : Option std_string :=
  if pos > line.length then none else some ((line.drop pos).take count)

/-- What the body of the config-file loop does with one line. -/
inductive LineResult where
  | skipped
  | pushed (arg : std_string)
  | thrown
  deriving DecidableEq, Repr

/-- The body of the loop `for (std::string line; std::getline(configFile,
line); )` of `main`, with the arithmetic of `size_t` modulo `2 ^ 64`. -/
def configLine (line : std_string) : LineResult :=
  let comment_pos := line.find (Char.ofNat 35)
  if comment_pos = 0 then LineResult.skipped
  else
    let end_ := line.find_last_not_of [Char.ofNat 32, Char.ofNat 9]
      ((comment_pos + 2 ^ 64 - 1) % 2 ^ 64)
    if end_ = npos then LineResult.skipped
    else
      let begin_ := line.find_first_not_of [Char.ofNat 32, Char.ofNat 9]
      if begin_ = npos then LineResult.skipped
      else
        match line.substr begin_ (((end_ + 2 ^ 64 - begin_) % 2 ^ 64 + 1) % 2 ^ 64) with
        | none => LineResult.thrown
        | some arg => LineResult.pushed arg

/-- The lines that successive calls of `std::getline` extract from the
contents of a file: each ends before a newline or at the end of the
contents, and nothing is extracted once the contents are used up. The
argument `cur` is the part of the current line already read. -/
def getlines (cur : std_string) : List Char → List std_string
  | [] => if cur = [] then [] else [cur]
  | c :: rest =>
    if c = Char.ofNat 10 then cur :: getlines [] rest
    else getlines (cur ++ [c]) rest

/-- The config-file loop of `main` over the lines read: the vector `args`
after it, or `none` when a line throws. -/
def readConfig (args : List std_string) : List std_string → Option (List std_string)
  | [] => some args
  | line :: rest =>
    match configLine line with
    | LineResult.skipped => readConfig args rest
    | LineResult.pushed arg => readConfig (args ++ [arg]) rest
    | LineResult.thrown => none

/-- The vector `args` that `main` hands to `parser.ParseArgs`: first the
config-file loop over the contents of `config.txt` (empty when the file cannot
be opened), then `argv[1]` to `argv[argc - 1]`. -/
def mainArgs (configFile : List Char) (argv : List std_string) : Option (List std_string) :=
  match readConfig [] (getlines [] configFile) with
  | none => none
  | some args => some (args ++ argv.drop 1)

/-- Whether a character is a space or a tab. -/
def isBlank (c : Char) : Bool := c = Char.ofNat 32 || c = Char.ofNat 9

/-- The line rule in the words of the claim: the text before the first `#`,
with leading and trailing spaces and tabs removed; nothing when that is empty. -/
def configLineRule (line : std_string) : Option std_string :=
  let text := ((line.takeWhile fun c => c != Char.ofNat 35).dropWhile isBlank).rdropWhile isBlank
  if text = [] then none else some text

/-! ## Sequences of calls on one tracker -/

/-- The console output of `Tracker::SetIndex` that precedes the announcement:
the warning printed by its first `if`. -/
def Tracker.SetIndexWarning (t : Tracker) (idx : TrackedDeviceIndex_t) : List String :=
  if t.index != k_unTrackedDeviceIndexInvalid then
    ["Warning: Tracked Device Index changed from " ++ toString t.index ++ " to " ++
      toString idx ++ ". Report this, because assumptions were incorrectly made."]
  else []

/-- A call of one of the two mutating members of `Tracker`, with its arguments. -/
inductive TrackerCall where
  | Update (pose : TrackedDevicePose_t) (just_connected : Bool)
  | SetIndex (idx : TrackedDeviceIndex_t) (pos : BodyPosition) (get_name : Unit → String)
      (get_serial : Unit → Option String) (send_anyway : Bool)

/-- One call on a tracker. -/
def Tracker.call (U : MatrixUtils) (t : Tracker) : TrackerCall → Tracker × List ProtobufMessage
  | TrackerCall.Update pose just_connected => t.Update U pose just_connected
  | TrackerCall.SetIndex idx pos get_name get_serial send_anyway =>
    t.SetIndex idx pos get_name get_serial send_anyway

/-- A sequence of calls on a tracker, each completed before the next: the
final record and all messages sent. -/
def Tracker.calls (U : MatrixUtils) : Tracker → List TrackerCall → Tracker × List ProtobufMessage
  | t, [] => (t, [])
  | t, c :: rest =>
    let r1 := t.call U c
    let r2 := Tracker.calls U r1.1 rest
    (r2.1, r1.2 ++ r2.2)

/-- The tracker id of the last announcement in a message list, or `d` when
the list has no announcement. -/
def lastAnnouncedFrom (d : TrackedDeviceIndex_t) : List ProtobufMessage → TrackedDeviceIndex_t
  | [] => d
  | ProtobufMessage.tracker_added a :: rest => lastAnnouncedFrom a.tracker_id rest
  | _ :: rest => lastAnnouncedFrom d rest

/-- A fresh tracker after its announcement for device 3 as `LeftFoot`. -/
def exampleAnnouncedTracker : Tracker :=
  (Tracker.new.SetIndex 3 BodyPosition.LeftFoot (fun _ => "ViveTracker") (fun _ => none)
    false).1

/-- An input system in which the action of `LeftFoot` (handle 103) is active
with origin 1005, and origin 1005 resolves, without error, to the index
`k_unTrackedDeviceIndexInvalid`; every other role is inactive. -/
def exampleStrayInput : IVRInput :=
  { exampleInput with
    GetPoseActionDataRelativeToNow := fun action =>
      if action = 103 then
        (EVRInputError.VRInputError_None,
          { bActive := true, activeOrigin := 1005, pose := exampleEmptyPose })
      else
        (EVRInputError.VRInputError_None,
          { bActive := false, activeOrigin := 0, pose := exampleEmptyPose })
    GetOriginTrackedDeviceInfo := fun origin =>
      if origin = 1005 then
        (EVRInputError.VRInputError_None, { trackedDeviceIndex := k_unTrackedDeviceIndexInvalid })
      else (EVRInputError.VRInputError_Other 3, { trackedDeviceIndex := 0 }) }

/-! ## The role tables positionNames and actions -/

/-- The table `positionNames`, in the order of its initialiser. -/
def positionNamesTable : List String :=
  [ "Head",
    "LeftHand",
    "RightHand",
    "LeftFoot",
    "RightFoot",
    "LeftShoulder",
    "RightShoulder",
    "LeftElbow",
    "RightElbow",
    "LeftKnee",
    "RightKnee",
    "Waist",
    "Chest" ]

/-- The table `actions`, in the order of its initialiser. -/
def actionsTable : List String :=
  [ "/actions/main/in/head",
    "/actions/main/in/left_hand",
    "/actions/main/in/right_hand",
    "/actions/main/in/left_foot",
    "/actions/main/in/right_foot",
    "/actions/main/in/left_shoulder",
    "/actions/main/in/right_shoulder",
    "/actions/main/in/left_elbow",
    "/actions/main/in/right_elbow",
    "/actions/main/in/left_knee",
    "/actions/main/in/right_knee",
    "/actions/main/in/waist",
    "/actions/main/in/chest" ]

/-- An input system in which the action of `LeftFoot` (handle 103) is active
with the value `k_ulInvalidInputValueHandle` as its origin, and that value
resolves to device 3; every other role is inactive. -/
def exampleNullOriginInput : IVRInput :=
  { exampleInput with
    GetPoseActionDataRelativeToNow := fun action =>
      if action = 103 then
        (EVRInputError.VRInputError_None,
          { bActive := true, activeOrigin := k_ulInvalidInputValueHandle
            pose := exampleValidPose })
      else
        (EVRInputError.VRInputError_None,
          { bActive := false, activeOrigin := 0, pose := exampleEmptyPose })
    GetOriginTrackedDeviceInfo := fun origin =>
      if origin = k_ulInvalidInputValueHandle then
        (EVRInputError.VRInputError_None, { trackedDeviceIndex := 3 })
      else (EVRInputError.VRInputError_Other 3, { trackedDeviceIndex := 0 }) }

/-! ## Tracker::Update -/

/-- C1 (pose de-duplication). For a record in the valid state and a valid
sample with `just_connected = false`: (a) if none of the seven scalars of the
sample differs (operator `!=`) from the stored one, `Update` sends nothing and
leaves the record as it was; (b) if at least one differs, `Update` sends
exactly one message, the position message carrying the seven values of the
sample, and stores them as the last-sent pose. -/
theorem update_pose_deduplication (U : MatrixUtils) (t : Tracker) (pose : TrackedDevicePose_t)
    (hv : t.current_valid = true) (hp : pose.bPoseIsValid = true) :
    ((double_ne t.current_rotation.w (U.GetRotation pose.mDeviceToAbsoluteTracking).w = false ∧
      double_ne t.current_rotation.x (U.GetRotation pose.mDeviceToAbsoluteTracking).x = false ∧
      double_ne t.current_rotation.y (U.GetRotation pose.mDeviceToAbsoluteTracking).y = false ∧
      double_ne t.current_rotation.z (U.GetRotation pose.mDeviceToAbsoluteTracking).z = false ∧
      float_ne t.current_position.v0 (U.GetPosition pose.mDeviceToAbsoluteTracking).v0 = false ∧
      float_ne t.current_position.v1 (U.GetPosition pose.mDeviceToAbsoluteTracking).v1 = false ∧
      float_ne t.current_position.v2 (U.GetPosition pose.mDeviceToAbsoluteTracking).v2 = false) →
        t.Update U pose false = (t, [])) ∧
    ((double_ne t.current_rotation.w (U.GetRotation pose.mDeviceToAbsoluteTracking).w = true ∨
      double_ne t.current_rotation.x (U.GetRotation pose.mDeviceToAbsoluteTracking).x = true ∨
      double_ne t.current_rotation.y (U.GetRotation pose.mDeviceToAbsoluteTracking).y = true ∨
      double_ne t.current_rotation.z (U.GetRotation pose.mDeviceToAbsoluteTracking).z = true ∨
      float_ne t.current_position.v0 (U.GetPosition pose.mDeviceToAbsoluteTracking).v0 = true ∨
      float_ne t.current_position.v1 (U.GetPosition pose.mDeviceToAbsoluteTracking).v1 = true ∨
      float_ne t.current_position.v2 (U.GetPosition pose.mDeviceToAbsoluteTracking).v2 = true) →
        t.Update U pose false =
          ({ t with
              current_position := U.GetPosition pose.mDeviceToAbsoluteTracking
              current_rotation := U.GetRotation pose.mDeviceToAbsoluteTracking },
           [ProtobufMessage.position
              { x := (U.GetPosition pose.mDeviceToAbsoluteTracking).v0
                y := (U.GetPosition pose.mDeviceToAbsoluteTracking).v1
                z := (U.GetPosition pose.mDeviceToAbsoluteTracking).v2
                qw := (U.GetRotation pose.mDeviceToAbsoluteTracking).w
                qx := (U.GetRotation pose.mDeviceToAbsoluteTracking).x
                qy := (U.GetRotation pose.mDeviceToAbsoluteTracking).y
                qz := (U.GetRotation pose.mDeviceToAbsoluteTracking).z
                tracker_id := t.index
                data_source :=
                  if pose.eTrackingResult = ETrackingResult.TrackingResult_Fallback_RotationOnly
                  then Position_DataSource.Position_DataSource_IMU
                  else Position_DataSource.Position_DataSource_FULL }])) := by
  constructor
  · rintro ⟨h1, h2, h3, h4, h5, h6, h7⟩
    simp [Tracker.Update, Tracker.UpdateValid, Tracker.UpdateStatus, hv, hp,
      h1, h2, h3, h4, h5, h6, h7]
  · intro h
    have hc : (double_ne t.current_rotation.w (U.GetRotation pose.mDeviceToAbsoluteTracking).w ||
        double_ne t.current_rotation.x (U.GetRotation pose.mDeviceToAbsoluteTracking).x ||
        double_ne t.current_rotation.y (U.GetRotation pose.mDeviceToAbsoluteTracking).y ||
        double_ne t.current_rotation.z (U.GetRotation pose.mDeviceToAbsoluteTracking).z ||
        float_ne t.current_position.v0 (U.GetPosition pose.mDeviceToAbsoluteTracking).v0 ||
        float_ne t.current_position.v1 (U.GetPosition pose.mDeviceToAbsoluteTracking).v1 ||
        float_ne t.current_position.v2 (U.GetPosition pose.mDeviceToAbsoluteTracking).v2)
          = true := by
      simpa [Bool.or_eq_true, or_assoc] using h
    simp [Tracker.Update, Tracker.UpdateValid, Tracker.UpdateStatus, hv, hp, hc,
      Tracker.positionMessage]

/-- C1 at concrete inputs: the sample at `(1, 2, 3)` with the identity rotation
sends nothing to a tracker that last sent exactly that pose, and sends one
position message to a tracker whose last-sent pose is zero. -/
theorem update_pose_deduplication_witness :
    exampleSentTracker.current_valid = true ∧ exampleMovedTracker.current_valid = true ∧
    exampleValidPose.bPoseIsValid = true ∧
    exampleSentTracker.Update exampleUtils exampleValidPose false = (exampleSentTracker, []) ∧
    exampleMovedTracker.Update exampleUtils exampleValidPose false =
      (exampleSentTracker,
       [ProtobufMessage.position
          { x := 0x3F800000, y := 0x40000000, z := 0x40400000
            qw := 0x3FF0000000000000, qx := 0, qy := 0, qz := 0
            tracker_id := 3
            data_source := Position_DataSource.Position_DataSource_FULL }]) :=
  ⟨rfl, rfl, rfl,
   (update_pose_deduplication exampleUtils exampleSentTracker exampleValidPose rfl rfl).1
     (by decide),
   (update_pose_deduplication exampleUtils exampleMovedTracker exampleValidPose rfl rfl).2
     (Or.inl (by decide))⟩

/-- The comparison of the model is the IEEE one, not identity of bit patterns:
a NaN differs from itself, and the two zeros do not differ. -/
theorem float_ne_is_ieee :
    float_ne 0x7FC00000 0x7FC00000 = true ∧ float_ne 0 0x80000000 = false ∧
    double_ne 0x7FF8000000000000 0x7FF8000000000000 = true ∧
    double_ne 0 0x8000000000000000 = false := by
  decide

/-- With `just_connected = false`, an invalid sample leaves a record that is
not in the valid state untouched and sends nothing. -/
theorem update_invalid_idle (U : MatrixUtils) (t : Tracker) (pose : TrackedDevicePose_t)
    (hv : t.current_valid = false) (hp : pose.bPoseIsValid = false) :
    t.Update U pose false = (t, []) := by
  simp [Tracker.Update, Tracker.UpdateValid, Tracker.UpdateStatus, hv, hp]

/-- After an invalid sample the record is not in the valid state. -/
theorem update_invalid_not_valid (U : MatrixUtils) (t : Tracker) (pose : TrackedDevicePose_t)
    (jc : Bool) (hp : pose.bPoseIsValid = false) :
    (t.Update U pose jc).1.current_valid = false := by
  cases hv : t.current_valid <;> cases jc <;>
    cases hc : pose.bDeviceIsConnected <;>
    by_cases hr : pose.eTrackingResult = ETrackingResult.TrackingResult_Running_OutOfRange <;>
    simp [Tracker.Update, Tracker.UpdateValid, Tracker.UpdateStatus, hv, hp, hc, hr]

/-- A run of invalid samples sends nothing to a record that is not in the
valid state. -/
theorem updateRun_invalid_idle (U : MatrixUtils) (poses : List TrackedDevicePose_t) :
    ∀ t : Tracker, t.current_valid = false → (∀ q ∈ poses, q.bPoseIsValid = false) →
      Tracker.UpdateRun U t poses = (t, []) := by
  induction poses with
  | nil => intro t _ _; rfl
  | cons p ps ih =>
    intro t hv hall
    have hp : p.bPoseIsValid = false := hall p (List.mem_cons_self p ps)
    have hps : ∀ q ∈ ps, q.bPoseIsValid = false := fun q hq => hall q (List.mem_cons_of_mem p hq)
    simp [Tracker.UpdateRun, update_invalid_idle U t p hv hp, ih t hv hps]

/-- C2 (edge-triggered status). With `just_connected = false`, for every
record and sample: `Update` sends a status message if and only if the validity
of the sample differs from `current_valid`; a record that is not valid and
receives a valid sample sends exactly one status, `OK`, as its first message;
a valid record that receives an invalid sample sends exactly one message, a
status other than `OK`; a record that is not valid and receives an invalid
sample sends nothing and does not change; and in a run of invalid samples
every sample after the first sends nothing. -/
theorem update_status_edge_triggered (U : MatrixUtils) (t : Tracker)
    (pose : TrackedDevicePose_t) :
    (statuses (t.Update U pose false).2 ≠ [] ↔ pose.bPoseIsValid ≠ t.current_valid) ∧
    (t.current_valid = false → pose.bPoseIsValid = true →
      statuses (t.Update U pose false).2 = [TrackerStatus_Status.TrackerStatus_Status_OK] ∧
      (t.Update U pose false).2.head? = some (ProtobufMessage.tracker_status
        { status := TrackerStatus_Status.TrackerStatus_Status_OK, tracker_id := t.index })) ∧
    (t.current_valid = true → pose.bPoseIsValid = false →
      ∃ st, st ≠ TrackerStatus_Status.TrackerStatus_Status_OK ∧
        (t.Update U pose false).2 =
          [ProtobufMessage.tracker_status { status := st, tracker_id := t.index }]) ∧
    (t.current_valid = false → pose.bPoseIsValid = false → t.Update U pose false = (t, [])) ∧
    (∀ rest : List TrackedDevicePose_t, pose.bPoseIsValid = false →
      (∀ q ∈ rest, q.bPoseIsValid = false) →
      (Tracker.UpdateRun U t (pose :: rest)).2 = (t.Update U pose false).2) := by
  refine ⟨?_, ?_, ?_, ?_, ?_⟩
  · cases hv : t.current_valid <;> cases hp : pose.bPoseIsValid <;>
      cases hc : pose.bDeviceIsConnected <;>
      by_cases hr : pose.eTrackingResult = ETrackingResult.TrackingResult_Running_OutOfRange <;>
      simp [Tracker.Update, Tracker.UpdateValid, Tracker.UpdateStatus, Tracker.SendStatus,
        Tracker.positionMessage, statuses, hv, hp, hc, hr] <;>
      split <;> simp [statuses]
  · intro hv hp
    simp only [Tracker.Update, Tracker.UpdateValid, Tracker.UpdateStatus, Tracker.SendStatus,
      Tracker.positionMessage, hv, hp]
    constructor <;> (simp; split <;> simp [statuses])
  · intro hv hp
    cases hc : pose.bDeviceIsConnected <;>
      by_cases hr : pose.eTrackingResult = ETrackingResult.TrackingResult_Running_OutOfRange <;>
      simp [Tracker.Update, Tracker.UpdateValid, Tracker.UpdateStatus, Tracker.SendStatus,
        hv, hp, hc, hr]
  · exact update_invalid_idle U t pose
  · intro rest hp hrest
    have h := updateRun_invalid_idle U rest (t.Update U pose false).1
      (update_invalid_not_valid U t pose false hp) hrest
    simp [Tracker.UpdateRun, h]

/-- C2 at concrete inputs: a fresh tracker sends `OK` on a valid sample, a
valid tracker sends one status other than `OK` on an invalid sample, and a
fresh tracker sends nothing on an invalid sample, however often it repeats. -/
theorem update_status_edge_triggered_witness :
    statuses (Tracker.new.Update exampleUtils exampleValidPose false).2 =
      [TrackerStatus_Status.TrackerStatus_Status_OK] ∧
    (∃ st, st ≠ TrackerStatus_Status.TrackerStatus_Status_OK ∧
      (exampleSentTracker.Update exampleUtils exampleLostPose false).2 =
        [ProtobufMessage.tracker_status { status := st, tracker_id := 3 }]) ∧
    Tracker.new.Update exampleUtils exampleLostPose false = (Tracker.new, []) ∧
    (Tracker.UpdateRun exampleUtils exampleSentTracker
        [exampleLostPose, exampleLostPose, exampleLostPose]).2 =
      (exampleSentTracker.Update exampleUtils exampleLostPose false).2 :=
  ⟨((update_status_edge_triggered exampleUtils Tracker.new exampleValidPose).2.1 rfl rfl).1,
   (update_status_edge_triggered exampleUtils exampleSentTracker exampleLostPose).2.2.1 rfl rfl,
   (update_status_edge_triggered exampleUtils Tracker.new exampleLostPose).2.2.2.1 rfl rfl,
   (update_status_edge_triggered exampleUtils exampleSentTracker exampleLostPose).2.2.2.2
     [exampleLostPose, exampleLostPose] rfl
     (fun q hq => by
       rcases List.mem_cons.1 hq with h | h
       · rw [h]; rfl
       · rw [List.mem_singleton.1 h]; rfl)⟩

/-- C3 (status priority). Whenever a record in the valid state receives an
invalid sample, with either value of `just_connected`, `Update` sends exactly
one message, a status: `DISCONNECTED` if the device is not connected whatever
the tracking result, otherwise `OCCLUDED` if the tracking result is
`Running_OutOfRange`, otherwise `ERROR`; afterwards `current_valid` is false
and the stored position and rotation are all zero, the index being kept. -/
theorem update_status_priority (U : MatrixUtils) (t : Tracker) (pose : TrackedDevicePose_t)
    (just_connected : Bool) (hv : t.current_valid = true) (hp : pose.bPoseIsValid = false) :
    ∃ st : TrackerStatus_Status,
      t.Update U pose just_connected =
        ({ current_rotation := ⟨0, 0, 0, 0⟩, current_position := ⟨0, 0, 0⟩,
           index := t.index, current_valid := false },
         [ProtobufMessage.tracker_status { status := st, tracker_id := t.index }]) ∧
      (pose.bDeviceIsConnected = false →
        st = TrackerStatus_Status.TrackerStatus_Status_DISCONNECTED) ∧
      (pose.bDeviceIsConnected = true →
        pose.eTrackingResult = ETrackingResult.TrackingResult_Running_OutOfRange →
        st = TrackerStatus_Status.TrackerStatus_Status_OCCLUDED) ∧
      (pose.bDeviceIsConnected = true →
        pose.eTrackingResult ≠ ETrackingResult.TrackingResult_Running_OutOfRange →
        st = TrackerStatus_Status.TrackerStatus_Status_ERROR) := by
  cases hc : pose.bDeviceIsConnected <;>
    by_cases hr : pose.eTrackingResult = ETrackingResult.TrackingResult_Running_OutOfRange <;>
    simp [Tracker.Update, Tracker.UpdateValid, Tracker.UpdateStatus, Tracker.SendStatus,
      HmdQuaternion_t.zero, HmdVector3_t.zero, hv, hp, hc, hr]

/-- C3 at a concrete input: a valid tracker for device 3 that receives the
invalid sample of a disconnected device whose tracking result is
`Running_OutOfRange` sends `DISCONNECTED` and is cleared. -/
theorem update_status_priority_witness :
    exampleSentTracker.current_valid = true ∧ exampleLostPose.bPoseIsValid = false ∧
    ∃ st : TrackerStatus_Status,
      exampleSentTracker.Update exampleUtils exampleLostPose false =
        ({ current_rotation := ⟨0, 0, 0, 0⟩, current_position := ⟨0, 0, 0⟩,
           index := 3, current_valid := false },
         [ProtobufMessage.tracker_status { status := st, tracker_id := 3 }]) ∧
      st = TrackerStatus_Status.TrackerStatus_Status_DISCONNECTED :=
  ⟨rfl, rfl,
   (update_status_priority exampleUtils exampleSentTracker exampleLostPose false rfl rfl).imp
     fun _ h => ⟨h.1, h.2.1 rfl⟩⟩

/-- C4, the code evaluated at the failing input. A fresh tracker that receives
a valid sample of a connected device whose tracking result is `Running_OK`,
with `just_connected = true`, sends `OK`, the position message, and then
`ERROR` in the same call; it ends with `current_valid = false` and the stored
pose cleared, not with the sample stored. -/
theorem update_reconnect_valid_sends_error :
    Tracker.new.Update exampleUtils exampleValidPose true =
      (Tracker.new,
       [ProtobufMessage.tracker_status
          { status := TrackerStatus_Status.TrackerStatus_Status_OK
            tracker_id := k_unTrackedDeviceIndexInvalid },
        ProtobufMessage.position
          { x := 0x3F800000, y := 0x40000000, z := 0x40400000
            qw := 0x3FF0000000000000, qx := 0, qy := 0, qz := 0
            tracker_id := k_unTrackedDeviceIndexInvalid
            data_source := Position_DataSource.Position_DataSource_FULL },
        ProtobufMessage.tracker_status
          { status := TrackerStatus_Status.TrackerStatus_Status_ERROR
            tracker_id := k_unTrackedDeviceIndexInvalid }]) ∧
    exampleValidPose.bPoseIsValid = true ∧
    (Tracker.new.Update exampleUtils exampleValidPose true).1.current_valid = false := by
  decide

/-- What the second statement of `Update` does on every input, as the code
stands. `Update` sends a status other than `OK` exactly when the record is
valid and the sample invalid, or `just_connected` is true whatever the
validity of the sample; in that case it ends with `current_valid = false` and
the stored pose all zero, and otherwise a valid record stays valid. For a
valid sample with `just_connected = true` the chain that picks the status has
no arm for a valid sample: `Update` sends `OK` if the record was not valid,
then the position message, then `DISCONNECTED`, `OCCLUDED` or `ERROR`. -/
theorem update_reconnect (U : MatrixUtils) (t : Tracker) (pose : TrackedDevicePose_t)
    (just_connected : Bool) :
    ((∃ st ∈ statuses (t.Update U pose just_connected).2,
        st ≠ TrackerStatus_Status.TrackerStatus_Status_OK) ↔
      ((t.current_valid = true ∧ pose.bPoseIsValid = false) ∨ just_connected = true)) ∧
    (((t.current_valid = true ∧ pose.bPoseIsValid = false) ∨ just_connected = true) →
      (t.Update U pose just_connected).1 =
        { current_rotation := ⟨0, 0, 0, 0⟩, current_position := ⟨0, 0, 0⟩,
          index := t.index, current_valid := false }) ∧
    (¬ ((t.current_valid = true ∧ pose.bPoseIsValid = false) ∨ just_connected = true) →
      t.current_valid = true → (t.Update U pose just_connected).1.current_valid = true) ∧
    (pose.bPoseIsValid = true → just_connected = true →
      (t.Update U pose just_connected).2 =
        (if t.current_valid = true then []
         else [ProtobufMessage.tracker_status
           { status := TrackerStatus_Status.TrackerStatus_Status_OK, tracker_id := t.index }]) ++
        [ProtobufMessage.position
          { x := (U.GetPosition pose.mDeviceToAbsoluteTracking).v0
            y := (U.GetPosition pose.mDeviceToAbsoluteTracking).v1
            z := (U.GetPosition pose.mDeviceToAbsoluteTracking).v2
            qw := (U.GetRotation pose.mDeviceToAbsoluteTracking).w
            qx := (U.GetRotation pose.mDeviceToAbsoluteTracking).x
            qy := (U.GetRotation pose.mDeviceToAbsoluteTracking).y
            qz := (U.GetRotation pose.mDeviceToAbsoluteTracking).z
            tracker_id := t.index
            data_source :=
              if pose.eTrackingResult = ETrackingResult.TrackingResult_Fallback_RotationOnly
              then Position_DataSource.Position_DataSource_IMU
              else Position_DataSource.Position_DataSource_FULL },
         ProtobufMessage.tracker_status { status := lostStatus pose, tracker_id := t.index }]) := by
  refine ⟨?_, ?_, ?_, ?_⟩
  · cases hv : t.current_valid <;> cases hp : pose.bPoseIsValid <;> cases just_connected <;>
      cases hc : pose.bDeviceIsConnected <;>
      by_cases hr : pose.eTrackingResult = ETrackingResult.TrackingResult_Running_OutOfRange <;>
      simp [Tracker.Update, Tracker.UpdateValid, Tracker.UpdateStatus, Tracker.SendStatus,
        Tracker.positionMessage, statuses, hv, hp, hc, hr] <;>
      split <;> simp [statuses]
  · cases hv : t.current_valid <;> cases hp : pose.bPoseIsValid <;> cases just_connected <;>
      cases hc : pose.bDeviceIsConnected <;>
      by_cases hr : pose.eTrackingResult = ETrackingResult.TrackingResult_Running_OutOfRange <;>
      simp [Tracker.Update, Tracker.UpdateValid, Tracker.UpdateStatus, Tracker.SendStatus,
        HmdQuaternion_t.zero, HmdVector3_t.zero, hv, hp, hc, hr]
  · intro hn hv
    cases hp : pose.bPoseIsValid <;> cases hj : just_connected <;>
      simp_all [Tracker.Update, Tracker.UpdateValid, Tracker.UpdateStatus]
    split <;> simp [hv]
  · intro hp hj
    subst hj
    cases hv : t.current_valid <;>
      cases hc : pose.bDeviceIsConnected <;>
      by_cases hr : pose.eTrackingResult = ETrackingResult.TrackingResult_Running_OutOfRange <;>
      simp [Tracker.Update, Tracker.UpdateValid, Tracker.UpdateStatus, Tracker.SendStatus,
        Tracker.positionMessage, lostStatus, hv, hp, hc, hr]

/-- The same at concrete inputs: with `just_connected = true` a valid tracker
for device 3 that receives the valid sample sends the position message and
then `ERROR`, and ends cleared and not valid. -/
theorem update_reconnect_witness :
    exampleValidPose.bPoseIsValid = true ∧
    (exampleSentTracker.Update exampleUtils exampleValidPose true).2 =
      [ProtobufMessage.position
          { x := 0x3F800000, y := 0x40000000, z := 0x40400000
            qw := 0x3FF0000000000000, qx := 0, qy := 0, qz := 0
            tracker_id := 3
            data_source := Position_DataSource.Position_DataSource_FULL },
       ProtobufMessage.tracker_status
          { status := TrackerStatus_Status.TrackerStatus_Status_ERROR, tracker_id := 3 }] ∧
    (exampleSentTracker.Update exampleUtils exampleValidPose true).1 =
      { current_rotation := ⟨0, 0, 0, 0⟩, current_position := ⟨0, 0, 0⟩,
        index := 3, current_valid := false } :=
  ⟨rfl,
   (update_reconnect exampleUtils exampleSentTracker exampleValidPose true).2.2.2 rfl rfl,
   (update_reconnect exampleUtils exampleSentTracker exampleValidPose true).2.1 (Or.inr rfl)⟩

/-! ## Tracker::SetIndex -/

/-- C6 (idempotent re-announcement). For every record and device index `d`:
the first of two consecutive calls `SetIndex(d, ..., false)` sends exactly one
announcement if the stored index differed from `d` and none if it equalled `d`,
the second sends none, so the two send at most one in total; a call with
`send_anyway = true` sends exactly one announcement whatever the stored index;
after each of these calls the stored index is `d`. -/
theorem setIndex_idempotent (t : Tracker) (d : TrackedDeviceIndex_t) (pos pos2 : BodyPosition)
    (get_name get_name2 : Unit → String) (get_serial get_serial2 : Unit → Option String) :
    (t.index ≠ d →
      (t.SetIndex d pos get_name get_serial false).2 =
        [ProtobufMessage.tracker_added
          { tracker_id := d, tracker_role := (positionIDs pos).toInt
            tracker_name := get_name (), tracker_serial := get_serial () }]) ∧
    (t.index = d → (t.SetIndex d pos get_name get_serial false).2 = []) ∧
    ((t.SetIndex d pos get_name get_serial false).1.SetIndex d pos2 get_name2 get_serial2
        false).2 = [] ∧
    ((t.SetIndex d pos get_name get_serial false).2 ++
      ((t.SetIndex d pos get_name get_serial false).1.SetIndex d pos2 get_name2 get_serial2
        false).2).length ≤ 1 ∧
    (t.SetIndex d pos get_name get_serial true).2 =
      [ProtobufMessage.tracker_added
        { tracker_id := d, tracker_role := (positionIDs pos).toInt
          tracker_name := get_name (), tracker_serial := get_serial () }] ∧
    (t.SetIndex d pos get_name get_serial false).1.index = d ∧
    ((t.SetIndex d pos get_name get_serial false).1.SetIndex d pos2 get_name2 get_serial2
        false).1.index = d ∧
    (t.SetIndex d pos get_name get_serial true).1.index = d := by
  by_cases h : t.index = d <;> simp [Tracker.SetIndex, h]

/-- C6 at concrete inputs: announcing device 3 for `LeftFoot` to a fresh
tracker sends one announcement, and announcing it again sends none. -/
theorem setIndex_idempotent_witness :
    (Tracker.new.SetIndex 3 BodyPosition.LeftFoot (fun _ => "ViveTracker") (fun _ => none)
        false).2 =
      [ProtobufMessage.tracker_added
        { tracker_id := 3, tracker_role := 2
          tracker_name := "ViveTracker", tracker_serial := none }] ∧
    ((Tracker.new.SetIndex 3 BodyPosition.LeftFoot (fun _ => "ViveTracker") (fun _ => none)
        false).1.SetIndex 3 BodyPosition.LeftFoot (fun _ => "ViveTracker") (fun _ => none)
        false).2 = [] :=
  ⟨(setIndex_idempotent Tracker.new 3 BodyPosition.LeftFoot BodyPosition.LeftFoot
      (fun _ => "ViveTracker") (fun _ => "ViveTracker") (fun _ => none) (fun _ => none)).1
      (by decide),
   (setIndex_idempotent Tracker.new 3 BodyPosition.LeftFoot BodyPosition.LeftFoot
      (fun _ => "ViveTracker") (fun _ => "ViveTracker") (fun _ => none) (fun _ => none)).2.2.1⟩

/-! ## OpenVRStuff::HandleDigitalActionBool -/

/-- C9 (digital edge detection). For every action handle and optional name:
the call sends exactly one message, the user action carrying the bound name, if
the query succeeds, `bChanged` and `bState` are both true and a name is bound;
in every other case it sends nothing; and it returns the queried data when the
query succeeds and nothing when it fails. -/
theorem handleDigitalActionBool_edge (input : IVRInput) (action_handle : VRActionHandle_t)
    (server_name : Option String) :
    (∀ value : String,
      (input.GetDigitalActionData action_handle).1 = EVRInputError.VRInputError_None →
      (input.GetDigitalActionData action_handle).2.bChanged = true →
      (input.GetDigitalActionData action_handle).2.bState = true →
      server_name = some value →
      (OpenVRStuff.HandleDigitalActionBool input action_handle server_name).2 =
        [ProtobufMessage.user_action { name := value }]) ∧
    (¬ ((input.GetDigitalActionData action_handle).1 = EVRInputError.VRInputError_None ∧
        (input.GetDigitalActionData action_handle).2.bChanged = true ∧
        (input.GetDigitalActionData action_handle).2.bState = true ∧
        server_name.isSome = true) →
      (OpenVRStuff.HandleDigitalActionBool input action_handle server_name).2 = []) ∧
    ((input.GetDigitalActionData action_handle).1 = EVRInputError.VRInputError_None →
      (OpenVRStuff.HandleDigitalActionBool input action_handle server_name).1 =
        some (input.GetDigitalActionData action_handle).2) ∧
    ((input.GetDigitalActionData action_handle).1 ≠ EVRInputError.VRInputError_None →
      (OpenVRStuff.HandleDigitalActionBool input action_handle server_name).1 = none) := by
  refine ⟨?_, ?_, ?_, ?_⟩
  · intro value he hc hs hn
    simp [OpenVRStuff.HandleDigitalActionBool, he, hc, hs, hn]
  · intro hn
    by_cases he : (input.GetDigitalActionData action_handle).1 = EVRInputError.VRInputError_None
    · simp only [OpenVRStuff.HandleDigitalActionBool, he, if_true]
      split
      · rename_i hcond
        exfalso
        apply hn
        simp only [Bool.and_eq_true, Bool.xor_false] at hcond
        exact ⟨he, hcond.1.1, hcond.1.2, hcond.2⟩
      · rfl
    · simp [OpenVRStuff.HandleDigitalActionBool, he]
  · intro he
    simp only [OpenVRStuff.HandleDigitalActionBool, he, if_true]
    split <;> rfl
  · intro he
    simp [OpenVRStuff.HandleDigitalActionBool, he]

/-- C9 at concrete inputs: action 200, just pressed, sends `calibrate` when
that name is bound and nothing when no name is bound; action 201, just
released, and action 202, unchanged, send nothing; action 999, whose query
fails, sends nothing and returns nothing. -/
theorem handleDigitalActionBool_edge_witness :
    (OpenVRStuff.HandleDigitalActionBool exampleInput 200 (some "calibrate")).2 =
      [ProtobufMessage.user_action { name := "calibrate" }] ∧
    (OpenVRStuff.HandleDigitalActionBool exampleInput 200 none).2 = [] ∧
    (OpenVRStuff.HandleDigitalActionBool exampleInput 201 (some "Confirm")).2 = [] ∧
    (OpenVRStuff.HandleDigitalActionBool exampleInput 202 (some "Confirm")).2 = [] ∧
    (OpenVRStuff.HandleDigitalActionBool exampleInput 999 (some "Confirm")).2 = [] ∧
    (OpenVRStuff.HandleDigitalActionBool exampleInput 999 (some "Confirm")).1 = none ∧
    (OpenVRStuff.HandleDigitalActionBool exampleInput 201 (some "Confirm")).1 =
      some (exampleInput.GetDigitalActionData 201).2 :=
  ⟨(handleDigitalActionBool_edge exampleInput 200 (some "calibrate")).1 "calibrate"
      rfl rfl rfl rfl,
   (handleDigitalActionBool_edge exampleInput 200 none).2.1 (by decide),
   (handleDigitalActionBool_edge exampleInput 201 (some "Confirm")).2.1 (by decide),
   (handleDigitalActionBool_edge exampleInput 202 (some "Confirm")).2.1 (by decide),
   (handleDigitalActionBool_edge exampleInput 999 (some "Confirm")).2.1 (by decide),
   (handleDigitalActionBool_edge exampleInput 999 (some "Confirm")).2.2.2 (by decide),
   (handleDigitalActionBool_edge exampleInput 201 (some "Confirm")).2.2.1 rfl⟩

/-! ## Loops over the roles -/

/-- Two bodies that agree on every element of a list give the same `flatMap`. -/
theorem flatMap_congr_mem {α β : Type} (l : List α) (f g : α → List β)
    (h : ∀ a ∈ l, f a = g a) : l.flatMap f = l.flatMap g := by
  induction l with
  | nil => rfl
  | cons a rest ih =>
    simp only [List.flatMap_cons]
    rw [h a (List.mem_cons_self a rest), ih (fun b hb => h b (List.mem_cons_of_mem a hb))]

/-- A loop whose body for role `j` writes only slot `j` of the two arrays,
and reads only slot `j`, acts on each slot separately: the messages are those
each body sends from the initial state, in order, and the final slot of a role
is the one its own body produces from the initial state. -/
theorem forRoles_slots
    (body : BodyPosition → OpenVRStuff → OpenVRStuff × List ProtobufMessage)
    (hframe : ∀ j k s, k ≠ j →
      (body j s).1.value_handles k = s.value_handles k ∧
      (body j s).1.trackers k = s.trackers k)
    (hlocal : ∀ j s s2, s.value_handles j = s2.value_handles j → s.trackers j = s2.trackers j →
      (body j s).2 = (body j s2).2 ∧
      (body j s).1.value_handles j = (body j s2).1.value_handles j ∧
      (body j s).1.trackers j = (body j s2).1.trackers j) :
    ∀ l : List BodyPosition, l.Nodup → ∀ s : OpenVRStuff,
      (OpenVRStuff.forRoles body l s).2 = l.flatMap (fun j => (body j s).2) ∧
      ∀ k,
        (k ∈ l →
          (OpenVRStuff.forRoles body l s).1.value_handles k = (body k s).1.value_handles k ∧
          (OpenVRStuff.forRoles body l s).1.trackers k = (body k s).1.trackers k) ∧
        (k ∉ l →
          (OpenVRStuff.forRoles body l s).1.value_handles k = s.value_handles k ∧
          (OpenVRStuff.forRoles body l s).1.trackers k = s.trackers k) := by
  intro l
  induction l with
  | nil =>
    intro _ s
    simp [OpenVRStuff.forRoles]
  | cons j rest ih =>
    intro hnd s
    have hj : j ∉ rest := (List.nodup_cons.1 hnd).1
    have hrest : rest.Nodup := (List.nodup_cons.1 hnd).2
    have hih := ih hrest (body j s).1
    have hagree : ∀ k ∈ rest,
        (body j s).1.value_handles k = s.value_handles k ∧
        (body j s).1.trackers k = s.trackers k := by
      intro k hk
      exact hframe j k s (fun h => hj (h ▸ hk))
    refine ⟨?_, ?_⟩
    · simp only [OpenVRStuff.forRoles, List.flatMap_cons]
      rw [hih.1]
      congr 1
      apply flatMap_congr_mem
      intro k hk
      exact (hlocal k _ _ (hagree k hk).1 (hagree k hk).2).1
    · intro k
      constructor
      · intro hk
        simp only [OpenVRStuff.forRoles]
        rcases List.mem_cons.1 hk with h | h
        · subst h
          exact (hih.2 k).2 hj
        · have h1 := (hih.2 k).1 h
          have h2 := hlocal k _ _ (hagree k h).1 (hagree k h).2
          exact ⟨h1.1.trans h2.2.1, h1.2.trans h2.2.2⟩
      · intro hk
        simp only [OpenVRStuff.forRoles]
        have hkj : k ≠ j := fun h => hk (h ▸ List.mem_cons_self j rest)
        have hkr : k ∉ rest := fun h => hk (List.mem_cons_of_mem j h)
        have h1 := (hih.2 k).2 hkr
        have h2 := hframe j k s hkj
        exact ⟨h1.1.trans h2.1, h1.2.trans h2.2⟩

/-- A loop whose body always has a result is the loop over those results. -/
theorem forRolesOpt_eq_some
    (body : BodyPosition → OpenVRStuff → Option (OpenVRStuff × List ProtobufMessage))
    (f : BodyPosition → OpenVRStuff → OpenVRStuff × List ProtobufMessage)
    (h : ∀ j s, body j s = some (f j s)) :
    ∀ (l : List BodyPosition) (s : OpenVRStuff),
      OpenVRStuff.forRolesOpt body l s = some (OpenVRStuff.forRoles f l s) := by
  intro l
  induction l with
  | nil => intro s; rfl
  | cons j rest ih =>
    intro s
    simp [OpenVRStuff.forRolesOpt, OpenVRStuff.forRoles, h j s, ih (f j s).1]

/-- The body of the loop of `UpdateValueHandles` for role `j` writes no slot but `j`. -/
theorem updateValueHandlesBody_frame (system : IVRSystem) (input : IVRInput)
    (actions : BodyPosition → VRActionHandle_t) (jc : Bool) (j k : BodyPosition)
    (s : OpenVRStuff) (hk : k ≠ j) :
    (OpenVRStuff.UpdateValueHandlesBody system input actions jc j s).1.value_handles k =
      s.value_handles k ∧
    (OpenVRStuff.UpdateValueHandlesBody system input actions jc j s).1.trackers k =
      s.trackers k := by
  unfold OpenVRStuff.UpdateValueHandlesBody
  simp only []
  split_ifs <;> try exact ⟨rfl, rfl⟩
  all_goals
    split <;> try split_ifs
  all_goals simp [Function.update_noteq hk]

/-- The body of the loop of `UpdateValueHandles` for role `j` reads no slot but `j`. -/
theorem updateValueHandlesBody_local (system : IVRSystem) (input : IVRInput)
    (actions : BodyPosition → VRActionHandle_t) (jc : Bool) (j : BodyPosition)
    (s s2 : OpenVRStuff) (hh : s.value_handles j = s2.value_handles j)
    (ht : s.trackers j = s2.trackers j) :
    (OpenVRStuff.UpdateValueHandlesBody system input actions jc j s).2 =
      (OpenVRStuff.UpdateValueHandlesBody system input actions jc j s2).2 ∧
    (OpenVRStuff.UpdateValueHandlesBody system input actions jc j s).1.value_handles j =
      (OpenVRStuff.UpdateValueHandlesBody system input actions jc j s2).1.value_handles j ∧
    (OpenVRStuff.UpdateValueHandlesBody system input actions jc j s).1.trackers j =
      (OpenVRStuff.UpdateValueHandlesBody system input actions jc j s2).1.trackers j := by
  unfold OpenVRStuff.UpdateValueHandlesBody
  simp only [hh, ht]
  split_ifs <;> try exact ⟨rfl, hh, ht⟩
  all_goals
    split <;> try split_ifs
  all_goals simp [ht]

/-- The member `UpdateValueHandles`, when the action-state update succeeds,
acts on each role separately. -/
theorem updateValueHandles_slots (system : IVRSystem) (input : IVRInput)
    (actions : BodyPosition → VRActionHandle_t) (jc : Bool) (s : OpenVRStuff)
    (hu : input.UpdateActionState = EVRInputError.VRInputError_None) :
    (OpenVRStuff.UpdateValueHandles system input s actions jc).2 =
      (List.finRange BodyPosition_Count).flatMap
        (fun j => (OpenVRStuff.UpdateValueHandlesBody system input actions jc j s).2) ∧
    ∀ k,
      (OpenVRStuff.UpdateValueHandles system input s actions jc).1.value_handles k =
        (OpenVRStuff.UpdateValueHandlesBody system input actions jc k s).1.value_handles k ∧
      (OpenVRStuff.UpdateValueHandles system input s actions jc).1.trackers k =
        (OpenVRStuff.UpdateValueHandlesBody system input actions jc k s).1.trackers k := by
  have h := forRoles_slots (OpenVRStuff.UpdateValueHandlesBody system input actions jc)
    (fun j k s hk => updateValueHandlesBody_frame system input actions jc j k s hk)
    (fun j s s2 hh ht => updateValueHandlesBody_local system input actions jc j s s2 hh ht)
    (List.finRange BodyPosition_Count) (List.nodup_finRange _) s
  simp only [OpenVRStuff.UpdateValueHandles, hu, bne_self_eq_false, Bool.false_eq_true, if_false]
  exact ⟨h.1, fun k => (h.2 k).1 (List.mem_finRange k)⟩

/-- The body of the loop of `Tick` for role `j` writes no slot but `j`. -/
theorem tickBody_frame (U : MatrixUtils) (system : IVRSystem) (input : IVRInput) (jc : Bool)
    (j k : BodyPosition) (s : OpenVRStuff) (hk : k ≠ j) :
    ((OpenVRStuff.TickBody U system input jc j s).getD (s, [])).1.value_handles k =
      s.value_handles k ∧
    ((OpenVRStuff.TickBody U system input jc j s).getD (s, [])).1.trackers k =
      s.trackers k := by
  unfold OpenVRStuff.TickBody
  simp only []
  split_ifs
  · exact ⟨rfl, rfl⟩
  · split
    · simp [Function.update_noteq hk]
    · split_ifs <;> simp [Function.update_noteq hk]

/-- The body of the loop of `Tick` for role `j` reads no slot but `j`. -/
theorem tickBody_local (U : MatrixUtils) (system : IVRSystem) (input : IVRInput) (jc : Bool)
    (j : BodyPosition) (s s2 : OpenVRStuff) (hh : s.value_handles j = s2.value_handles j)
    (ht : s.trackers j = s2.trackers j) :
    ((OpenVRStuff.TickBody U system input jc j s).getD (s, [])).2 =
      ((OpenVRStuff.TickBody U system input jc j s2).getD (s2, [])).2 ∧
    ((OpenVRStuff.TickBody U system input jc j s).getD (s, [])).1.value_handles j =
      ((OpenVRStuff.TickBody U system input jc j s2).getD (s2, [])).1.value_handles j ∧
    ((OpenVRStuff.TickBody U system input jc j s).getD (s, [])).1.trackers j =
      ((OpenVRStuff.TickBody U system input jc j s2).getD (s2, [])).1.trackers j := by
  unfold OpenVRStuff.TickBody
  simp only [hh, ht]
  split_ifs
  · exact ⟨rfl, hh, ht⟩
  · split
    · simp [ht]
    · split_ifs <;> simp [hh, ht]

/-- When every origin that resolves does so to an index inside `device_poses`,
the body of the loop of `Tick` has a result. -/
theorem tickBody_some (U : MatrixUtils) (system : IVRSystem) (input : IVRInput) (jc : Bool)
    (hb : ∀ origin idx, OpenVRStuff.GetIndex input origin = some idx →
      idx < k_unMaxTrackedDeviceCount)
    (j : BodyPosition) (s : OpenVRStuff) :
    OpenVRStuff.TickBody U system input jc j s =
      some ((OpenVRStuff.TickBody U system input jc j s).getD (s, [])) := by
  unfold OpenVRStuff.TickBody
  simp only []
  split_ifs
  · rfl
  · split
    · rfl
    · rename_i idx hidx
      have := hb _ idx hidx
      simp [this]

/-- The member `Tick`, when every origin that resolves does so to an index
inside `device_poses`, has a result and acts on each role separately. -/
theorem tick_slots (U : MatrixUtils) (system : IVRSystem) (input : IVRInput) (jc : Bool)
    (hb : ∀ origin idx, OpenVRStuff.GetIndex input origin = some idx →
      idx < k_unMaxTrackedDeviceCount)
    (s : OpenVRStuff) :
    ∃ res, OpenVRStuff.Tick U system input s jc = some res ∧
      res.2 = (List.finRange BodyPosition_Count).flatMap
        (fun j => ((OpenVRStuff.TickBody U system input jc j s).getD (s, [])).2) ∧
      ∀ k,
        res.1.value_handles k =
          ((OpenVRStuff.TickBody U system input jc k s).getD (s, [])).1.value_handles k ∧
        res.1.trackers k =
          ((OpenVRStuff.TickBody U system input jc k s).getD (s, [])).1.trackers k := by
  have h := forRoles_slots
    (fun j s => (OpenVRStuff.TickBody U system input jc j s).getD (s, []))
    (fun j k s hk => tickBody_frame U system input jc j k s hk)
    (fun j s s2 hh ht => tickBody_local U system input jc j s s2 hh ht)
    (List.finRange BodyPosition_Count) (List.nodup_finRange _) s
  refine ⟨_, forRolesOpt_eq_some _ _ (fun j s => tickBody_some U system input jc hb j s) _ s,
    h.1, fun k => (h.2 k).1 (List.mem_finRange k)⟩

/-! ## OpenVRStuff::UpdateValueHandles and OpenVRStuff::Tick -/

/-- C5, the code evaluated at the failing input. `RightFoot` is unbound, its
action is active with origin 1002, the origin resolves to device 5 and the
tracking-system name of device 5 is `SlimeVR`. `UpdateValueHandles` announces
nothing for it but stores origin 1002 as the binding of `RightFoot`, and the
following `Tick` feeds the pose of device 5 to the tracker of `RightFoot`,
which sends `OK` and a position message under the unassigned index. -/
theorem selfFeedback_device_is_bound_and_fed :
    OpenVRStuff.new.value_handles BodyPosition.RightFoot = k_ulInvalidInputValueHandle ∧
    (exampleInput.GetPoseActionDataRelativeToNow (exampleActions BodyPosition.RightFoot)).1 =
      EVRInputError.VRInputError_None ∧
    (exampleInput.GetPoseActionDataRelativeToNow
      (exampleActions BodyPosition.RightFoot)).2.bActive = true ∧
    (exampleInput.GetPoseActionDataRelativeToNow
      (exampleActions BodyPosition.RightFoot)).2.activeOrigin = 1002 ∧
    OpenVRStuff.GetIndex exampleInput 1002 = some 5 ∧
    OpenVRStuff.GetStringProp exampleSystem 5
      ETrackedDeviceProperty.Prop_TrackingSystemName_String = some "SlimeVR" ∧
    (OpenVRStuff.UpdateValueHandlesBody exampleSystem exampleInput exampleActions false
      BodyPosition.RightFoot OpenVRStuff.new).2 = [] ∧
    (OpenVRStuff.UpdateValueHandles exampleSystem exampleInput OpenVRStuff.new
      exampleActions false).1.value_handles BodyPosition.RightFoot = 1002 ∧
    (OpenVRStuff.TickBody exampleUtils exampleSystem exampleInput false BodyPosition.RightFoot
      (OpenVRStuff.UpdateValueHandles exampleSystem exampleInput OpenVRStuff.new
        exampleActions false).1).map (fun r => r.2) =
      some
        [ProtobufMessage.tracker_status
          { status := TrackerStatus_Status.TrackerStatus_Status_OK
            tracker_id := k_unTrackedDeviceIndexInvalid },
         ProtobufMessage.position
          { x := 0x3F800000, y := 0x40000000, z := 0x40400000
            qw := 0x3FF0000000000000, qx := 0, qy := 0, qz := 0
            tracker_id := k_unTrackedDeviceIndexInvalid
            data_source := Position_DataSource.Position_DataSource_FULL }] ∧
    (OpenVRStuff.Tick exampleUtils exampleSystem exampleInput
      (OpenVRStuff.UpdateValueHandles exampleSystem exampleInput OpenVRStuff.new
        exampleActions false).1 false).map (fun r => r.2) =
      some
        [ProtobufMessage.tracker_status
          { status := TrackerStatus_Status.TrackerStatus_Status_OK, tracker_id := 3 },
         ProtobufMessage.position
          { x := 0x3F800000, y := 0x40000000, z := 0x40400000
            qw := 0x3FF0000000000000, qx := 0, qy := 0, qz := 0
            tracker_id := 3
            data_source := Position_DataSource.Position_DataSource_FULL },
         ProtobufMessage.tracker_status
          { status := TrackerStatus_Status.TrackerStatus_Status_OK
            tracker_id := k_unTrackedDeviceIndexInvalid },
         ProtobufMessage.position
          { x := 0x3F800000, y := 0x40000000, z := 0x40400000
            qw := 0x3FF0000000000000, qx := 0, qy := 0, qz := 0
            tracker_id := k_unTrackedDeviceIndexInvalid
            data_source := Position_DataSource.Position_DataSource_FULL }] := by
  decide

/-- Leaving out the messages of a role that sends none does not change the
messages of a loop. -/
theorem flatMap_skip_role (f : BodyPosition → List ProtobufMessage) (r : BodyPosition)
    (own : List ProtobufMessage) (h : f r = own) (l : List BodyPosition) :
    l.flatMap f = l.flatMap (fun j => if j = r then own else f j) := by
  apply flatMap_congr_mem
  intro j _
  by_cases hj : j = r
  · simp [hj, h]
  · simp [hj]

/-- The body of the loop of `UpdateValueHandles` when the newly reported
origin does not resolve: the origin is stored, nothing else happens. -/
theorem updateValueHandlesBody_unresolved (system : IVRSystem) (input : IVRInput)
    (actions : BodyPosition → VRActionHandle_t) (jc : Bool) (r : BodyPosition)
    (s : OpenVRStuff) (O : VRInputValueHandle_t)
    (hq : (input.GetPoseActionDataRelativeToNow (actions r)).1 = EVRInputError.VRInputError_None)
    (ha : (input.GetPoseActionDataRelativeToNow (actions r)).2.bActive = true)
    (ho : (input.GetPoseActionDataRelativeToNow (actions r)).2.activeOrigin = O)
    (hne : s.value_handles r ≠ O ∨ jc = true)
    (hres : OpenVRStuff.GetIndex input O = none) :
    OpenVRStuff.UpdateValueHandlesBody system input actions jc r s =
      ({ s with value_handles := Function.update s.value_handles r O }, []) := by
  have hc : (s.value_handles r != O || jc) = true := by
    rcases hne with h | h
    · simp [h]
    · simp [h]
  simp only [OpenVRStuff.UpdateValueHandlesBody, hq, ha, ho, hc, hres, bne_self_eq_false,
    Bool.false_eq_true, if_false, if_true]

/-- The body of the loop of `Tick` when the stored origin does not resolve:
the stored origin is replaced by the invalid handle, nothing else happens. -/
theorem tickBody_unresolved (U : MatrixUtils) (system : IVRSystem) (input : IVRInput)
    (jc : Bool) (r : BodyPosition) (s : OpenVRStuff)
    (hs : s.value_handles r ≠ k_ulInvalidInputValueHandle)
    (hres : OpenVRStuff.GetIndex input (s.value_handles r) = none) :
    OpenVRStuff.TickBody U system input jc r s =
      some ({ s with value_handles :=
        Function.update s.value_handles r k_ulInvalidInputValueHandle }, []) := by
  simp only [OpenVRStuff.TickBody, hs, hres, if_false]

/-- Every origin that the input system of the examples resolves maps to an
index inside `device_poses`. -/
theorem exampleInput_inBounds :
    ∀ origin idx, OpenVRStuff.GetIndex exampleInput origin = some idx →
      idx < k_unMaxTrackedDeviceCount := by
  intro origin idx h
  simp only [OpenVRStuff.GetIndex, exampleInput] at h
  by_cases h1 : origin = 1001
  · simp [h1] at h
    rw [← h]; decide
  · by_cases h2 : origin = 1002
    · simp [h2] at h
      rw [← h]; decide
    · by_cases h3 : origin = 1004
      · simp [h3] at h
        rw [← h]; decide
      · simp [h1, h2, h3] at h

/-- A loop whose body has a result whenever the stored origin of its role
satisfies `P`, and writes the stored origin of no other role, has a result
when `P` holds of the stored origins of all roles at the start. -/
theorem forRolesOpt_eq_some_of_stored
    (body : BodyPosition → OpenVRStuff → Option (OpenVRStuff × List ProtobufMessage))
    (f : BodyPosition → OpenVRStuff → OpenVRStuff × List ProtobufMessage)
    (P : VRInputValueHandle_t → Prop)
    (hdef : ∀ j s, P (s.value_handles j) → body j s = some (f j s))
    (hframe : ∀ j k s, k ≠ j → (f j s).1.value_handles k = s.value_handles k) :
    ∀ l : List BodyPosition, l.Nodup → ∀ s : OpenVRStuff,
      (∀ j ∈ l, P (s.value_handles j)) →
      OpenVRStuff.forRolesOpt body l s = some (OpenVRStuff.forRoles f l s) := by
  intro l
  induction l with
  | nil => intro _ s _; rfl
  | cons j rest ih =>
    intro hnd s hP
    have hj : j ∉ rest := (List.nodup_cons.1 hnd).1
    have hrest : rest.Nodup := (List.nodup_cons.1 hnd).2
    have h1 := hdef j s (hP j (List.mem_cons_self j rest))
    have h2 := ih hrest (f j s).1 (by
      intro k hk
      have hkj : k ≠ j := fun h => hj (h ▸ hk)
      rw [hframe j k s hkj]
      exact hP k (List.mem_cons_of_mem j hk))
    simp [OpenVRStuff.forRolesOpt, OpenVRStuff.forRoles, h1, h2]

/-- The body of the loop of `Tick` has a result when the stored origin of its
role, if it resolves, does so to an index inside `device_poses`. -/
theorem tickBody_some_of_stored (U : MatrixUtils) (system : IVRSystem) (input : IVRInput)
    (jc : Bool) (j : BodyPosition) (s : OpenVRStuff)
    (hb : ∀ idx, OpenVRStuff.GetIndex input (s.value_handles j) = some idx →
      idx < k_unMaxTrackedDeviceCount) :
    OpenVRStuff.TickBody U system input jc j s =
      some ((OpenVRStuff.TickBody U system input jc j s).getD (s, [])) := by
  unfold OpenVRStuff.TickBody
  simp only []
  split_ifs
  · rfl
  · split
    · rfl
    · rename_i idx hidx
      have := hb idx hidx
      simp [this]

/-- The member `Tick`, when every stored origin that resolves does so to an
index inside `device_poses`, has a result and acts on each role separately. -/
theorem tick_slots_of_stored (U : MatrixUtils) (system : IVRSystem) (input : IVRInput)
    (jc : Bool) (s : OpenVRStuff)
    (hb : ∀ j idx, OpenVRStuff.GetIndex input (s.value_handles j) = some idx →
      idx < k_unMaxTrackedDeviceCount) :
    ∃ res, OpenVRStuff.Tick U system input s jc = some res ∧
      res.2 = (List.finRange BodyPosition_Count).flatMap
        (fun j => ((OpenVRStuff.TickBody U system input jc j s).getD (s, [])).2) ∧
      ∀ k,
        res.1.value_handles k =
          ((OpenVRStuff.TickBody U system input jc k s).getD (s, [])).1.value_handles k ∧
        res.1.trackers k =
          ((OpenVRStuff.TickBody U system input jc k s).getD (s, [])).1.trackers k := by
  have h := forRoles_slots
    (fun j s => (OpenVRStuff.TickBody U system input jc j s).getD (s, []))
    (fun j k s hk => tickBody_frame U system input jc j k s hk)
    (fun j s s2 hh ht => tickBody_local U system input jc j s s2 hh ht)
    (List.finRange BodyPosition_Count) (List.nodup_finRange _) s
  have hsome := forRolesOpt_eq_some_of_stored
    (OpenVRStuff.TickBody U system input jc)
    (fun j s => (OpenVRStuff.TickBody U system input jc j s).getD (s, []))
    (fun origin => ∀ idx, OpenVRStuff.GetIndex input origin = some idx →
      idx < k_unMaxTrackedDeviceCount)
    (fun j s hP => tickBody_some_of_stored U system input jc j s hP)
    (fun j k s hk => (tickBody_frame U system input jc j k s hk).1)
    (List.finRange BodyPosition_Count) (List.nodup_finRange _) s
    (fun j _ => hb j)
  exact ⟨_, hsome, h.1, fun k => (h.2 k).1 (List.mem_finRange k)⟩

/-- C7, the claim refuted at a concrete input. `LeftKnee` is unbound and its
action is active with origin 1003, which does not resolve: after
`UpdateValueHandles` the stored binding of `LeftKnee` is 1003, not the invalid
handle it was; and the following `Tick`, in which 1003 does not resolve
either, leaves the invalid handle, not the 1003 that was stored. -/
theorem resolution_failure_changes_binding :
    OpenVRStuff.GetIndex exampleInput 1003 = none ∧
    OpenVRStuff.new.value_handles BodyPosition.LeftKnee = k_ulInvalidInputValueHandle ∧
    (OpenVRStuff.UpdateValueHandles exampleSystem exampleInput OpenVRStuff.new
      exampleActions false).1.value_handles BodyPosition.LeftKnee = 1003 ∧
    (OpenVRStuff.Tick exampleUtils exampleSystem exampleInput
      (OpenVRStuff.UpdateValueHandles exampleSystem exampleInput OpenVRStuff.new
        exampleActions false).1 false).map (fun res => res.1.value_handles BodyPosition.LeftKnee)
      = some k_ulInvalidInputValueHandle ∧
    (1003 : VRInputValueHandle_t) ≠ k_ulInvalidInputValueHandle := by
  decide

/-- C7 as amended (origin-resolution failure). For every role: when
`UpdateValueHandles` tries to resolve a reported active origin `O` and fails,
the tracker record of the role is unchanged and no message is sent for the
role, the other roles being processed as usual (nothing is said of the stored
binding). When `Tick` fails to resolve the stored origin of the role, and the
stored origins of the other roles that resolve do so to an index below
`k_unMaxTrackedDeviceCount`, so that the pass reads inside `device_poses`,
then `Tick` completes, the stored origin of the role is discarded (the binding
is the invalid handle afterwards), the tracker record of the role is
unchanged and no message is sent for the role, the other roles being processed
as usual. -/
theorem resolution_failure_effect (U : MatrixUtils) (system : IVRSystem) (input : IVRInput)
    (actions : BodyPosition → VRActionHandle_t) (jc : Bool) (s : OpenVRStuff)
    (r : BodyPosition) :
    (∀ O : VRInputValueHandle_t,
      input.UpdateActionState = EVRInputError.VRInputError_None →
      (input.GetPoseActionDataRelativeToNow (actions r)).1 = EVRInputError.VRInputError_None →
      (input.GetPoseActionDataRelativeToNow (actions r)).2.bActive = true →
      (input.GetPoseActionDataRelativeToNow (actions r)).2.activeOrigin = O →
      (s.value_handles r ≠ O ∨ jc = true) →
      OpenVRStuff.GetIndex input O = none →
      (OpenVRStuff.UpdateValueHandles system input s actions jc).1.trackers r = s.trackers r ∧
      (OpenVRStuff.UpdateValueHandles system input s actions jc).2 =
        (List.finRange BodyPosition_Count).flatMap (fun j =>
          if j = r then []
          else (OpenVRStuff.UpdateValueHandlesBody system input actions jc j s).2)) ∧
    ((∀ j idx, j ≠ r → OpenVRStuff.GetIndex input (s.value_handles j) = some idx →
        idx < k_unMaxTrackedDeviceCount) →
      s.value_handles r ≠ k_ulInvalidInputValueHandle →
      OpenVRStuff.GetIndex input (s.value_handles r) = none →
      ∃ res, OpenVRStuff.Tick U system input s jc = some res ∧
        res.1.value_handles r = k_ulInvalidInputValueHandle ∧
        res.1.trackers r = s.trackers r ∧
        res.2 = (List.finRange BodyPosition_Count).flatMap (fun j =>
          if j = r then []
          else ((OpenVRStuff.TickBody U system input jc j s).getD (s, [])).2)) := by
  constructor
  · intro O hu hq ha ho hne hres
    have hbody := updateValueHandlesBody_unresolved system input actions jc r s O hq ha ho hne hres
    have h := updateValueHandles_slots system input actions jc s hu
    refine ⟨?_, ?_⟩
    · rw [(h.2 r).2, hbody]
    · rw [h.1]
      exact flatMap_skip_role _ r [] (by rw [hbody]) _
  · intro hb hs hres
    have hbody := tickBody_unresolved U system input jc r s hs hres
    have hall : ∀ j idx, OpenVRStuff.GetIndex input (s.value_handles j) = some idx →
        idx < k_unMaxTrackedDeviceCount := by
      intro j idx hj
      by_cases hjr : j = r
      · rw [hjr, hres] at hj
        cases hj
      · exact hb j idx hjr hj
    obtain ⟨res, hres1, hres2, hres3⟩ := tick_slots_of_stored U system input jc s hall
    refine ⟨res, hres1, ?_, ?_, ?_⟩
    · rw [(hres3 r).1, hbody]; simp
    · rw [(hres3 r).2, hbody]; simp
    · rw [hres2]
      exact flatMap_skip_role _ r [] (by rw [hbody]; rfl) _

/-- C7 as amended, at concrete inputs: origin 1003 of `LeftKnee` does not
resolve; `UpdateValueHandles` leaves the tracker alone and sends nothing for
the role, and `Tick` from the state it leaves discards the origin and leaves
the tracker alone. -/
theorem resolution_failure_effect_witness :
    ((OpenVRStuff.UpdateValueHandles exampleSystem exampleInput OpenVRStuff.new
        exampleActions false).1.trackers BodyPosition.LeftKnee =
          OpenVRStuff.new.trackers BodyPosition.LeftKnee ∧
      (OpenVRStuff.UpdateValueHandles exampleSystem exampleInput OpenVRStuff.new
        exampleActions false).2 =
        (List.finRange BodyPosition_Count).flatMap (fun j =>
          if j = BodyPosition.LeftKnee then []
          else (OpenVRStuff.UpdateValueHandlesBody exampleSystem exampleInput exampleActions
            false j OpenVRStuff.new).2)) ∧
    (∃ res, OpenVRStuff.Tick exampleUtils exampleSystem exampleInput
        (OpenVRStuff.UpdateValueHandles exampleSystem exampleInput OpenVRStuff.new
          exampleActions false).1 false = some res ∧
      res.1.value_handles BodyPosition.LeftKnee = k_ulInvalidInputValueHandle ∧
      res.1.trackers BodyPosition.LeftKnee =
        (OpenVRStuff.UpdateValueHandles exampleSystem exampleInput OpenVRStuff.new
          exampleActions false).1.trackers BodyPosition.LeftKnee ∧
      res.2 = (List.finRange BodyPosition_Count).flatMap (fun j =>
        if j = BodyPosition.LeftKnee then []
        else ((OpenVRStuff.TickBody exampleUtils exampleSystem exampleInput false j
          (OpenVRStuff.UpdateValueHandles exampleSystem exampleInput OpenVRStuff.new
            exampleActions false).1).getD
          ((OpenVRStuff.UpdateValueHandles exampleSystem exampleInput OpenVRStuff.new
            exampleActions false).1, [])).2)) :=
  ⟨(resolution_failure_effect exampleUtils exampleSystem exampleInput exampleActions false
      OpenVRStuff.new BodyPosition.LeftKnee).1 1003 rfl rfl rfl rfl (Or.inl (by decide))
      (by decide),
   (resolution_failure_effect exampleUtils exampleSystem exampleInput exampleActions false
      (OpenVRStuff.UpdateValueHandles exampleSystem exampleInput OpenVRStuff.new
        exampleActions false).1 BodyPosition.LeftKnee).2
      (fun _ idx _ h => exampleInput_inBounds _ idx h) (by decide) (by decide)⟩

/-- The body of the loop of `UpdateValueHandles` for a role whose pose-action
query fails or whose action is inactive: nothing happens. -/
theorem updateValueHandlesBody_skipped (system : IVRSystem) (input : IVRInput)
    (actions : BodyPosition → VRActionHandle_t) (jc : Bool) (r : BodyPosition)
    (s : OpenVRStuff)
    (h : (input.GetPoseActionDataRelativeToNow (actions r)).1 ≠ EVRInputError.VRInputError_None ∨
      (input.GetPoseActionDataRelativeToNow (actions r)).2.bActive = false) :
    OpenVRStuff.UpdateValueHandlesBody system input actions jc r s = (s, []) := by
  rcases h with h | h
  · simp [OpenVRStuff.UpdateValueHandlesBody, h]
  · simp [OpenVRStuff.UpdateValueHandlesBody, h]

/-- C8, the claim refuted at concrete inputs. `LeftFoot` has the invalid
handle stored and an unassigned tracker record, and `just_connected` is false.
First input: its action is active with origin 1005, which resolves to the
index `k_unTrackedDeviceIndexInvalid`, whose tracking-system name is not
`SlimeVR`; `UpdateValueHandles` stores 1005 and sends no announcement, because
the record already holds that index. Second input: its action is active with
the invalid handle as origin, which resolves to device 3 of the `lighthouse`
system; `UpdateValueHandles` sends no announcement, because the origin equals
the stored one. -/
theorem updateValueHandles_sentinel_not_announced :
    OpenVRStuff.new.value_handles BodyPosition.LeftFoot = k_ulInvalidInputValueHandle ∧
    (OpenVRStuff.new.trackers BodyPosition.LeftFoot).index = k_unTrackedDeviceIndexInvalid ∧
    exampleStrayInput.UpdateActionState = EVRInputError.VRInputError_None ∧
    (exampleStrayInput.GetPoseActionDataRelativeToNow
      (exampleActions BodyPosition.LeftFoot)).1 = EVRInputError.VRInputError_None ∧
    (exampleStrayInput.GetPoseActionDataRelativeToNow
      (exampleActions BodyPosition.LeftFoot)).2.bActive = true ∧
    (exampleStrayInput.GetPoseActionDataRelativeToNow
      (exampleActions BodyPosition.LeftFoot)).2.activeOrigin = 1005 ∧
    OpenVRStuff.GetIndex exampleStrayInput 1005 = some k_unTrackedDeviceIndexInvalid ∧
    OpenVRStuff.GetStringProp exampleSystem k_unTrackedDeviceIndexInvalid
      ETrackedDeviceProperty.Prop_TrackingSystemName_String ≠ some "SlimeVR" ∧
    (OpenVRStuff.UpdateValueHandles exampleSystem exampleStrayInput OpenVRStuff.new
      exampleActions false).1.value_handles BodyPosition.LeftFoot = 1005 ∧
    (OpenVRStuff.UpdateValueHandles exampleSystem exampleStrayInput OpenVRStuff.new
      exampleActions false).2 = [] ∧
    exampleNullOriginInput.UpdateActionState = EVRInputError.VRInputError_None ∧
    (exampleNullOriginInput.GetPoseActionDataRelativeToNow
      (exampleActions BodyPosition.LeftFoot)).1 = EVRInputError.VRInputError_None ∧
    (exampleNullOriginInput.GetPoseActionDataRelativeToNow
      (exampleActions BodyPosition.LeftFoot)).2.bActive = true ∧
    (exampleNullOriginInput.GetPoseActionDataRelativeToNow
      (exampleActions BodyPosition.LeftFoot)).2.activeOrigin = k_ulInvalidInputValueHandle ∧
    OpenVRStuff.GetIndex exampleNullOriginInput k_ulInvalidInputValueHandle = some 3 ∧
    OpenVRStuff.GetStringProp exampleSystem 3
      ETrackedDeviceProperty.Prop_TrackingSystemName_String ≠ some "SlimeVR" ∧
    (OpenVRStuff.UpdateValueHandles exampleSystem exampleNullOriginInput OpenVRStuff.new
      exampleActions false).2 = [] := by
  decide

/-- C8 as amended (announcement on new binding). Let role `r` have the invalid
handle stored and an unassigned tracker record, and let `UpdateValueHandles`
with `just_connected = false` find the action of `r` active with origin `O`,
where `O` is not the invalid handle, resolves to a device index `d` that is
not the unassigned value `k_unTrackedDeviceIndexInvalid`, and the
tracking-system name of `d` is not
`SlimeVR`. Then `O` is stored as the binding of `r`, the record of `r` gets
index `d` and is otherwise unchanged, and exactly one message is sent for `r`:
the announcement with tracker id `d`, role `positionIDs[r]`, the
controller-type string as name if there is one and otherwise `Index` followed
by `d` in decimal, and the serial exactly when it is available; the other
roles are processed as usual. -/
theorem updateValueHandles_announces (system : IVRSystem) (input : IVRInput)
    (actions : BodyPosition → VRActionHandle_t) (s : OpenVRStuff) (r : BodyPosition)
    (O : VRInputValueHandle_t) (d : TrackedDeviceIndex_t)
    (hu : input.UpdateActionState = EVRInputError.VRInputError_None)
    (hstored : s.value_handles r = k_ulInvalidInputValueHandle)
    (hunassigned : (s.trackers r).index = k_unTrackedDeviceIndexInvalid)
    (hq : (input.GetPoseActionDataRelativeToNow (actions r)).1 = EVRInputError.VRInputError_None)
    (ha : (input.GetPoseActionDataRelativeToNow (actions r)).2.bActive = true)
    (ho : (input.GetPoseActionDataRelativeToNow (actions r)).2.activeOrigin = O)
    (hO : O ≠ k_ulInvalidInputValueHandle)
    (hres : OpenVRStuff.GetIndex input O = some d)
    (hd : d ≠ k_unTrackedDeviceIndexInvalid)
    (hdrv : OpenVRStuff.GetStringProp system d
      ETrackedDeviceProperty.Prop_TrackingSystemName_String ≠ some "SlimeVR") :
    (OpenVRStuff.UpdateValueHandles system input s actions false).1.value_handles r = O ∧
    (OpenVRStuff.UpdateValueHandles system input s actions false).1.trackers r =
      { s.trackers r with index := d } ∧
    (OpenVRStuff.UpdateValueHandlesBody system input actions false r s).2 =
      [ProtobufMessage.tracker_added
        { tracker_id := d
          tracker_role := (positionIDs r).toInt
          tracker_name :=
            (OpenVRStuff.GetStringProp system d
              ETrackedDeviceProperty.Prop_ControllerType_String).getD ("Index" ++ toString d)
          tracker_serial := OpenVRStuff.GetStringProp system d
            ETrackedDeviceProperty.Prop_SerialNumber_String }] ∧
    (OpenVRStuff.UpdateValueHandles system input s actions false).2 =
      (List.finRange BodyPosition_Count).flatMap (fun j =>
        if j = r then
          [ProtobufMessage.tracker_added
            { tracker_id := d
              tracker_role := (positionIDs r).toInt
              tracker_name :=
                (OpenVRStuff.GetStringProp system d
                  ETrackedDeviceProperty.Prop_ControllerType_String).getD
                  ("Index" ++ toString d)
              tracker_serial := OpenVRStuff.GetStringProp system d
                ETrackedDeviceProperty.Prop_SerialNumber_String }]
        else (OpenVRStuff.UpdateValueHandlesBody system input actions false j s).2) := by
  have hc : (s.value_handles r != O) = true := by
    rw [hstored]; simpa using fun h : k_ulInvalidInputValueHandle = O => hO h.symm
  have hi : ((s.trackers r).index != d) = true := by
    rw [hunassigned]; simpa using fun h : k_unTrackedDeviceIndexInvalid = d => hd h.symm
  have hbody : OpenVRStuff.UpdateValueHandlesBody system input actions false r s =
      ({ value_handles := Function.update s.value_handles r O
         trackers := Function.update s.trackers r { s.trackers r with index := d } },
       [ProtobufMessage.tracker_added
        { tracker_id := d
          tracker_role := (positionIDs r).toInt
          tracker_name :=
            (OpenVRStuff.GetStringProp system d
              ETrackedDeviceProperty.Prop_ControllerType_String).getD ("Index" ++ toString d)
          tracker_serial := OpenVRStuff.GetStringProp system d
            ETrackedDeviceProperty.Prop_SerialNumber_String }]) := by
    simp only [OpenVRStuff.UpdateValueHandlesBody, hq, ha, ho, hc, hres, hdrv, Tracker.SetIndex,
      hi, bne_self_eq_false, Bool.false_eq_true, if_false, if_true, Bool.or_false]
    cases OpenVRStuff.GetStringProp system d ETrackedDeviceProperty.Prop_ControllerType_String <;>
      rfl
  have h := updateValueHandles_slots system input actions false s hu
  refine ⟨?_, ?_, ?_, ?_⟩
  · rw [(h.2 r).1, hbody]; simp
  · rw [(h.2 r).2, hbody]; simp
  · rw [hbody]
  · rw [h.1]
    exact flatMap_skip_role _ r _ (by rw [hbody]) _

/-- C8 as amended, at the concrete input of the scenario: `LeftFoot` unbound, its action
active with origin 1001, which resolves to device 3 of the `lighthouse`
system with controller type `ViveTracker`: exactly one message is sent for
`LeftFoot`, the announcement of device 3 for the external id 2 of `LeftFoot`
under the name `ViveTracker` with its serial. `Chest`, bound in the same call
to device 7 without controller type or serial, is announced as `Index7`
without serial. -/
theorem updateValueHandles_announces_witness :
    (OpenVRStuff.UpdateValueHandles exampleSystem exampleInput OpenVRStuff.new
      exampleActions false).1.value_handles BodyPosition.LeftFoot = 1001 ∧
    (OpenVRStuff.UpdateValueHandlesBody exampleSystem exampleInput exampleActions false
      BodyPosition.LeftFoot OpenVRStuff.new).2 =
      [ProtobufMessage.tracker_added
        { tracker_id := 3
          tracker_role := (positionIDs BodyPosition.LeftFoot).toInt
          tracker_name :=
            (OpenVRStuff.GetStringProp exampleSystem 3
              ETrackedDeviceProperty.Prop_ControllerType_String).getD ("Index" ++ toString 3)
          tracker_serial := OpenVRStuff.GetStringProp exampleSystem 3
            ETrackedDeviceProperty.Prop_SerialNumber_String }] ∧
    (positionIDs BodyPosition.LeftFoot).toInt = 2 ∧
    OpenVRStuff.GetStringProp exampleSystem 3
      ETrackedDeviceProperty.Prop_ControllerType_String = some "ViveTracker" ∧
    (OpenVRStuff.UpdateValueHandlesBody exampleSystem exampleInput exampleActions false
      BodyPosition.LeftFoot OpenVRStuff.new).2 =
      [ProtobufMessage.tracker_added
        { tracker_id := 3, tracker_role := 2, tracker_name := "ViveTracker"
          tracker_serial := some "LHR-0001" }] ∧
    (OpenVRStuff.UpdateValueHandlesBody exampleSystem exampleInput exampleActions false
      BodyPosition.Chest OpenVRStuff.new).2 =
      [ProtobufMessage.tracker_added
        { tracker_id := 7
          tracker_role := (positionIDs BodyPosition.Chest).toInt
          tracker_name :=
            (OpenVRStuff.GetStringProp exampleSystem 7
              ETrackedDeviceProperty.Prop_ControllerType_String).getD ("Index" ++ toString 7)
          tracker_serial := OpenVRStuff.GetStringProp exampleSystem 7
            ETrackedDeviceProperty.Prop_SerialNumber_String }] ∧
    (OpenVRStuff.UpdateValueHandles exampleSystem exampleInput OpenVRStuff.new
      exampleActions false).2 =
      [ProtobufMessage.tracker_added
        { tracker_id := 3, tracker_role := 2, tracker_name := "ViveTracker"
          tracker_serial := some "LHR-0001" },
       ProtobufMessage.tracker_added
        { tracker_id := 7, tracker_role := 4, tracker_name := "Index7"
          tracker_serial := none }] :=
  have h := updateValueHandles_announces exampleSystem exampleInput exampleActions
    OpenVRStuff.new BodyPosition.LeftFoot 1001 3 rfl rfl rfl rfl rfl rfl (by decide) (by decide)
    (by decide) (by decide)
  have h2 := updateValueHandles_announces exampleSystem exampleInput exampleActions
    OpenVRStuff.new BodyPosition.Chest 1004 7 rfl rfl rfl rfl rfl rfl (by decide) (by decide)
    (by decide) (by decide)
  ⟨h.1, h.2.2.1, by decide, by decide, by decide, h2.2.2.1, by decide⟩

/-- C10 (skipped roles). If the action-state update fails, `UpdateValueHandles`
changes nothing and sends nothing. If it succeeds, then for every role whose
pose-action query fails or whose action is inactive, the stored binding and the
tracker record of the role after the call are those before it and no message
is sent for the role, while every other role is processed: its binding and
record are what its own loop body produces, and the messages sent are those of
the other roles, in order. -/
theorem updateValueHandles_skips (system : IVRSystem) (input : IVRInput)
    (actions : BodyPosition → VRActionHandle_t) (jc : Bool) (s : OpenVRStuff) :
    (input.UpdateActionState ≠ EVRInputError.VRInputError_None →
      OpenVRStuff.UpdateValueHandles system input s actions jc = (s, [])) ∧
    (∀ r : BodyPosition, input.UpdateActionState = EVRInputError.VRInputError_None →
      ((input.GetPoseActionDataRelativeToNow (actions r)).1 ≠ EVRInputError.VRInputError_None ∨
        (input.GetPoseActionDataRelativeToNow (actions r)).2.bActive = false) →
      (OpenVRStuff.UpdateValueHandles system input s actions jc).1.value_handles r =
        s.value_handles r ∧
      (OpenVRStuff.UpdateValueHandles system input s actions jc).1.trackers r = s.trackers r ∧
      (OpenVRStuff.UpdateValueHandles system input s actions jc).2 =
        (List.finRange BodyPosition_Count).flatMap (fun j =>
          if j = r then []
          else (OpenVRStuff.UpdateValueHandlesBody system input actions jc j s).2) ∧
      ∀ k, k ≠ r →
        (OpenVRStuff.UpdateValueHandles system input s actions jc).1.value_handles k =
          (OpenVRStuff.UpdateValueHandlesBody system input actions jc k s).1.value_handles k ∧
        (OpenVRStuff.UpdateValueHandles system input s actions jc).1.trackers k =
          (OpenVRStuff.UpdateValueHandlesBody system input actions jc k s).1.trackers k) := by
  constructor
  · intro hu
    simp [OpenVRStuff.UpdateValueHandles, hu]
  · intro r hu hr
    have hbody := updateValueHandlesBody_skipped system input actions jc r s hr
    have h := updateValueHandles_slots system input actions jc s hu
    refine ⟨?_, ?_, ?_, fun k _ => h.2 k⟩
    · rw [(h.2 r).1, hbody]
    · rw [(h.2 r).2, hbody]
    · rw [h.1]
      exact flatMap_skip_role _ r [] (by rw [hbody]) _

/-- C10 at concrete inputs: with the action-state update failing nothing
changes; with it succeeding, `Head` (query fails) and `Waist` (inactive) keep
their binding and record while `LeftFoot` is still announced. -/
theorem updateValueHandles_skips_witness :
    OpenVRStuff.UpdateValueHandles exampleSystem exampleFailedInput OpenVRStuff.new
      exampleActions false = (OpenVRStuff.new, []) ∧
    (OpenVRStuff.UpdateValueHandles exampleSystem exampleInput OpenVRStuff.new
      exampleActions false).1.value_handles BodyPosition.Head =
        OpenVRStuff.new.value_handles BodyPosition.Head ∧
    (OpenVRStuff.UpdateValueHandles exampleSystem exampleInput OpenVRStuff.new
      exampleActions false).1.trackers BodyPosition.Waist =
        OpenVRStuff.new.trackers BodyPosition.Waist ∧
    (OpenVRStuff.UpdateValueHandles exampleSystem exampleInput OpenVRStuff.new
      exampleActions false).1.value_handles BodyPosition.LeftFoot =
        (OpenVRStuff.UpdateValueHandlesBody exampleSystem exampleInput exampleActions false
          BodyPosition.LeftFoot OpenVRStuff.new).1.value_handles BodyPosition.LeftFoot :=
  ⟨(updateValueHandles_skips exampleSystem exampleFailedInput exampleActions false
      OpenVRStuff.new).1 (by decide),
   ((updateValueHandles_skips exampleSystem exampleInput exampleActions false
      OpenVRStuff.new).2 BodyPosition.Head rfl (Or.inl (by decide))).1,
   ((updateValueHandles_skips exampleSystem exampleInput exampleActions false
      OpenVRStuff.new).2 BodyPosition.Waist rfl (Or.inr rfl)).2.1,
   (((updateValueHandles_skips exampleSystem exampleInput exampleActions false
      OpenVRStuff.new).2 BodyPosition.Head rfl (Or.inl (by decide))).2.2.2
      BodyPosition.LeftFoot (by decide)).1⟩

/-! ## The tick loop -/

/-- One iteration of the event loop, when the counts stay representable:
the deadline advances by one period whatever the clock says, and the
iteration sleeps for `deadline - now` when that is positive and yields
otherwise. -/
theorem loopIteration_advance (period next_tick now : Int)
    (hp : 0 ≤ period) (hn : 0 ≤ next_tick) (hmax : next_tick + period ≤ INT64_MAX)
    (hnow : 0 ≤ now ∧ now ≤ INT64_MAX) :
    loopIteration period next_tick now =
      some (next_tick + period,
        [LoopEvent.pass,
         if next_tick + period - now > 0 then LoopEvent.sleep_for (next_tick + period - now)
         else LoopEvent.yield]) := by
  have h1 : int64 (next_tick + period) = some (next_tick + period) := by
    unfold int64 INT64_MIN
    rw [if_pos]
    exact ⟨by omega, hmax⟩
  have h2 : int64 (next_tick + period - now) = some (next_tick + period - now) := by
    unfold int64
    rw [if_pos]
    unfold INT64_MIN
    unfold INT64_MAX at hmax hnow ⊢
    omega
  simp only [loopIteration, h1, h2]
  split <;> rfl

/-- The schedule that the event loop is expected to follow: in each iteration
one pass, then a sleep of `deadline - now` when that is positive and a yield
otherwise, the deadline being one period later in each iteration. -/
theorem eventLoop_advance (period : Int) (hp : 0 ≤ period) (nows : List Int) :
    ∀ next_tick : Int, 0 ≤ next_tick →
      next_tick + (nows.length : Int) * period ≤ INT64_MAX →
      (∀ now ∈ nows, 0 ≤ now ∧ now ≤ INT64_MAX) →
      ∃ events, eventLoop period next_tick nows =
          some (next_tick + (nows.length : Int) * period, events) ∧
        events.length = 2 * nows.length ∧
        events.count LoopEvent.pass = nows.length := by
  induction nows with
  | nil =>
    intro next_tick _ _ _
    exact ⟨[], by simp [eventLoop], rfl, rfl⟩
  | cons now rest ih =>
    intro next_tick hn hmax hnow
    have hlen : ((now :: rest).length : Int) = (rest.length : Int) + 1 := by
      simp
    rw [hlen] at hmax
    have hrp : 0 ≤ (rest.length : Int) * period :=
      Int.mul_nonneg (Int.ofNat_nonneg _) hp
    have hstep := loopIteration_advance period next_tick now hp hn (by linarith)
      (hnow now (List.mem_cons_self now rest))
    obtain ⟨ev, hev, hl, hc⟩ := ih (next_tick + period) (by linarith) (by linarith)
      (fun n hn2 => hnow n (List.mem_cons_of_mem now hn2))
    refine ⟨[LoopEvent.pass,
        if next_tick + period - now > 0 then LoopEvent.sleep_for (next_tick + period - now)
        else LoopEvent.yield] ++ ev, ?_, ?_, ?_⟩
    · simp only [eventLoop, hstep, hev]
      rw [hlen]
      congr 2
      ring
    · simp [hl]; omega
    · simp only [List.count_append, hc, List.count_cons, List.count_nil]
      split <;> simp <;> omega

/-- C11 (drift-free deadline). With a non-zero rate `tps`, the period is
`1000000000 / tps` (integer division), and as long as the nanosecond counts
stay representable: after the `k` iterations of the event loop the deadline
is the initial deadline plus `k` periods, whatever the clock read in them, and
the loop has run exactly `k` passes, each followed by one sleep or yield; and
every single iteration advances the deadline by exactly one period whatever
the clock says, sleeping for `deadline - now` when that is positive and
yielding once otherwise. -/
theorem tick_deadline_drift_free (tps : Nat) (start : Int) (nows : List Int)
    (htps : tps % 2 ^ 32 ≠ 0) (hstart : 0 ≤ start)
    (hmax : start + (nows.length : Int) * ((1000000000 / (tps % 2 ^ 32) : Nat) : Int)
      ≤ INT64_MAX)
    (hnow : ∀ now ∈ nows, 0 ≤ now ∧ now ≤ INT64_MAX) :
    (∃ events, mainSchedule tps start nows =
        some (start + (nows.length : Int) * ((1000000000 / (tps % 2 ^ 32) : Nat) : Int),
          events) ∧
      events.length = 2 * nows.length ∧
      events.count LoopEvent.pass = nows.length) ∧
    (∀ next_tick now : Int, 0 ≤ next_tick →
      next_tick + ((1000000000 / (tps % 2 ^ 32) : Nat) : Int) ≤ INT64_MAX →
      0 ≤ now ∧ now ≤ INT64_MAX →
      loopIteration ((1000000000 / (tps % 2 ^ 32) : Nat) : Int) next_tick now =
        some (next_tick + ((1000000000 / (tps % 2 ^ 32) : Nat) : Int),
          [LoopEvent.pass,
           if next_tick + ((1000000000 / (tps % 2 ^ 32) : Nat) : Int) - now > 0 then
             LoopEvent.sleep_for (next_tick + ((1000000000 / (tps % 2 ^ 32) : Nat) : Int) - now)
           else LoopEvent.yield])) := by
  have hperiod : tick_ns tps = some (((1000000000 / (tps % 2 ^ 32) : Nat) : Int)) := by
    unfold tick_ns
    rw [if_neg htps]
  constructor
  · simp only [mainSchedule, hperiod]
    exact eventLoop_advance _ (Int.ofNat_nonneg _) nows start hstart hmax hnow
  · intro next_tick now hn hm hnw
    exact loopIteration_advance _ next_tick now (Int.ofNat_nonneg _) hn hm hnw

/-- C11 at concrete inputs: at 100 ticks per second from deadline 0, with the
clock reading 5 ms, 25 ms (an overrun) and 26 ms after the three passes, the
deadline ends at 30 ms, and the loop sleeps 5 ms, yields, and sleeps 4 ms. -/
theorem tick_deadline_drift_free_witness :
    mainSchedule 100 0 [5000000, 25000000, 26000000] =
      some (30000000,
        [LoopEvent.pass, LoopEvent.sleep_for 5000000, LoopEvent.pass, LoopEvent.yield,
         LoopEvent.pass, LoopEvent.sleep_for 4000000]) ∧
    ∃ events, mainSchedule 100 0 [5000000, 25000000, 26000000] =
        some ((0 : Int) + (([5000000, 25000000, 26000000] : List Int).length : Int) *
          ((1000000000 / (100 % 2 ^ 32) : Nat) : Int), events) ∧
      events.length = 2 * ([5000000, 25000000, 26000000] : List Int).length ∧
      events.count LoopEvent.pass = ([5000000, 25000000, 26000000] : List Int).length :=
  ⟨by decide,
   (tick_deadline_drift_free 100 0 [5000000, 25000000, 26000000] (by decide) (by decide)
      (by decide) (by decide)).1⟩

/-- C17, the code evaluated at the failing inputs. The rate 0, which the
`--tps` option accepts, makes the computation of `tick_ns` a division by zero,
so the schedule has no defined result; the rate 2000000000, also accepted,
gives the period 0, with which the deadline never advances and every iteration
yields. The default rate 100 gives 10000000 ns. -/
theorem tick_period_zero_rate :
    tick_ns 0 = none ∧
    mainSchedule 0 0 [5000000] = none ∧
    tick_ns 2000000000 = some 0 ∧
    mainSchedule 2000000000 1000 [1001, 1002] =
      some (1000, [LoopEvent.pass, LoopEvent.yield, LoopEvent.pass, LoopEvent.yield]) ∧
    tick_ns 100 = some 10000000 := by
  decide

/-! ## The config file -/

/-- Membership in the set `" \t"` is being a space or a tab. -/
theorem mem_blanks_iff (c : Char) : c ∈ [Char.ofNat 32, Char.ofNat 9] ↔ isBlank c = true := by
  simp [isBlank]

/-- A list is what is left after dropping its trailing run, followed by that run. -/
theorem rdropWhile_append_rtakeWhile_self (p : Char → Bool) (l : List Char) :
    l.rdropWhile p ++ l.rtakeWhile p = l := by
  have h := List.takeWhile_append_dropWhile p l.reverse
  have h2 := congrArg List.reverse h
  rw [List.reverse_append, List.reverse_reverse] at h2
  exact h2

/-- Trimming blanks at both ends either leaves nothing, when every character
is blank, or splits the text into leading blanks, a core that begins and ends
with a non-blank character, and trailing blanks. -/
theorem trim_decompose (pre : std_string) :
    ((∀ c ∈ pre, isBlank c = true) ∧ (pre.dropWhile isBlank).rdropWhile isBlank = []) ∨
    ∃ (lead body trail : std_string) (x : Char),
      pre = lead ++ (body ++ [x]) ++ trail ∧
      (∀ c ∈ lead, isBlank c = true) ∧ (∀ c ∈ trail, isBlank c = true) ∧
      isBlank x = false ∧
      (∀ y, (body ++ [x]).head? = some y → isBlank y = false) ∧
      (pre.dropWhile isBlank).rdropWhile isBlank = body ++ [x] := by
  by_cases hall : ∀ c ∈ pre, isBlank c = true
  · left
    refine ⟨hall, ?_⟩
    rw [List.dropWhile_eq_nil_iff.2 hall]
    rfl
  · right
    have hrest : pre.dropWhile isBlank ≠ [] := fun h => hall (List.dropWhile_eq_nil_iff.1 h)
    have hhead := List.head_dropWhile_not isBlank pre hrest
    have htext : (pre.dropWhile isBlank).rdropWhile isBlank ≠ [] := by
      intro h
      have hb := List.rdropWhile_eq_nil_iff.1 h
      have hm := hb _ (List.head_mem hrest)
      rw [hm] at hhead
      exact absurd hhead (by decide)
    have hlast := List.rdropWhile_last_not isBlank (pre.dropWhile isBlank) htext
    obtain ⟨body, x, hbx0⟩ := (List.eq_nil_or_concat _).resolve_left htext
    have hbx : (pre.dropWhile isBlank).rdropWhile isBlank = body ++ [x] := by
      rw [hbx0, List.concat_eq_append]
    have hx : isBlank x = false := by
      have hl : ((pre.dropWhile isBlank).rdropWhile isBlank).getLast htext = x := by
        simp [hbx]
      rw [hl] at hlast
      simpa using hlast
    refine ⟨pre.takeWhile isBlank, body, (pre.dropWhile isBlank).rtakeWhile isBlank, x,
      ?_, ?_, ?_, hx, ?_, ?_⟩
    · have h1 := rdropWhile_append_rtakeWhile_self isBlank (pre.dropWhile isBlank)
      have h2 := List.takeWhile_append_dropWhile isBlank pre
      rw [hbx] at h1
      rw [List.append_assoc, h1, h2]
    · intro c hc
      exact List.mem_takeWhile_imp hc
    · intro c hc
      exact List.mem_rtakeWhile_imp hc
    · intro y hy
      have hpre : (pre.dropWhile isBlank).rdropWhile isBlank <+: pre.dropWhile isBlank :=
        List.rdropWhile_prefix isBlank _
      obtain ⟨t, ht⟩ := hpre
      have hne : body ++ [x] ≠ [] := by simp
      have hh : (pre.dropWhile isBlank).head hrest = y := by
        have : (pre.dropWhile isBlank).head? = some y := by
          rw [← ht, hbx, List.head?_append_of_ne_nil _ hne]
          exact hy
        rw [List.head?_eq_head hrest] at this
        exact Option.some.inj this
      rw [hh] at hhead
      simpa using hhead
    · rw [hbx]

/-- The search of `find` returns `npos` when the character does not occur,
and otherwise the index of its first occurrence. -/
theorem findFrom_eq (c : Char) (l : std_string) :
    ∀ i, std_string.findFrom c l i =
      if c ∈ l then i + (l.takeWhile fun d => d != c).length else npos := by
  induction l with
  | nil => intro i; simp [std_string.findFrom]
  | cons d rest ih =>
    intro i
    by_cases hd : d = c
    · simp [std_string.findFrom, hd]
    · have hcd : ¬ c = d := fun h => hd h.symm
      have htw : (List.takeWhile (fun d => d != c) (d :: rest)) =
          d :: List.takeWhile (fun d => d != c) rest := by
        rw [List.takeWhile_cons]
        simp [hd]
      simp only [std_string.findFrom, hd, if_false, ih, List.mem_cons, hcd, false_or, htw,
        List.length_cons]
      split
      · omega
      · rfl

/-- The search of `find_first_not_of` skips leading blanks and stops at the
first other character. -/
theorem firstNotOfFrom_lead (lead : std_string) (y : Char) (more : std_string)
    (hlead : ∀ c ∈ lead, isBlank c = true) (hy : isBlank y = false) :
    ∀ i, std_string.firstNotOfFrom [Char.ofNat 32, Char.ofNat 9] (lead ++ y :: more) i =
      i + lead.length := by
  induction lead with
  | nil =>
    intro i
    have : ¬ y ∈ [Char.ofNat 32, Char.ofNat 9] := by
      rw [mem_blanks_iff, hy]; decide
    simp only [List.nil_append, std_string.firstNotOfFrom, this, if_false, List.length_nil,
      Nat.add_zero]
  | cons d rest ih =>
    intro i
    have hd : d ∈ [Char.ofNat 32, Char.ofNat 9] :=
      (mem_blanks_iff d).2 (hlead d (List.mem_cons_self d rest))
    have h := ih (fun c hc => hlead c (List.mem_cons_of_mem d hc)) (i + 1)
    show std_string.firstNotOfFrom [Char.ofNat 32, Char.ofNat 9] (d :: (rest ++ y :: more)) i =
      i + (d :: rest).length
    simp only [std_string.firstNotOfFrom, hd, if_true, List.length_cons]
    rw [h]
    omega

/-- One step of the downward search of `find_last_not_of`. -/
theorem lastNotOfFrom_step (line : std_string) (set : List Char) (i : Nat) :
    std_string.lastNotOfFrom line set i =
      if line.getD i (Char.ofNat 0) ∈ set then
        (if i = 0 then npos else std_string.lastNotOfFrom line set (i - 1))
      else i := by
  cases i with
  | zero => simp [std_string.lastNotOfFrom]
  | succ n => simp [std_string.lastNotOfFrom]

/-- The downward search of `find_last_not_of` passes over trailing blanks and
stops at the last other character. -/
theorem lastNotOfFrom_core (l1 : std_string) (x : Char) (l2 l3 : std_string)
    (hx : isBlank x = false) (hl2 : ∀ c ∈ l2, isBlank c = true) :
    ∀ k, k ≤ l2.length →
      std_string.lastNotOfFrom (l1 ++ x :: (l2 ++ l3)) [Char.ofNat 32, Char.ofNat 9]
        (l1.length + k) = l1.length := by
  intro k
  induction k with
  | zero =>
    intro _
    rw [lastNotOfFrom_step]
    have hget : (l1 ++ x :: (l2 ++ l3)).getD (l1.length + 0) (Char.ofNat 0) = x := by
      rw [List.getD_eq_getElem?_getD, Nat.add_zero, List.getElem?_append_right (Nat.le_refl _),
        Nat.sub_self]
      simp
    rw [hget, if_neg]
    · rfl
    · rw [mem_blanks_iff, hx]; decide
  | succ k ih =>
    intro hk
    rw [lastNotOfFrom_step]
    have hk2 : k < l2.length := by omega
    have hget : (l1 ++ x :: (l2 ++ l3)).getD (l1.length + (k + 1)) (Char.ofNat 0) = l2[k] := by
      rw [List.getD_eq_getElem?_getD, List.getElem?_append_right (by omega)]
      have : l1.length + (k + 1) - l1.length = k + 1 := by omega
      rw [this, List.getElem?_cons_succ, List.getElem?_append_left hk2,
        List.getElem?_eq_getElem hk2]
      rfl
    have hb : l2[k] ∈ [Char.ofNat 32, Char.ofNat 9] :=
      (mem_blanks_iff _).2 (hl2 _ (List.getElem_mem hk2))
    rw [hget, if_pos hb, if_neg (by omega)]
    have : l1.length + (k + 1) - 1 = l1.length + k := by omega
    rw [this]
    exact ih (by omega)

/-- The downward search of `find_last_not_of` finds nothing in a run of blanks. -/
theorem lastNotOfFrom_blank (pre l3 : std_string) (hpre : ∀ c ∈ pre, isBlank c = true) :
    ∀ i, i < pre.length →
      std_string.lastNotOfFrom (pre ++ l3) [Char.ofNat 32, Char.ofNat 9] i = npos := by
  intro i
  induction i with
  | zero =>
    intro h0
    rw [lastNotOfFrom_step]
    have hget : (pre ++ l3).getD 0 (Char.ofNat 0) = pre[0] := by
      rw [List.getD_eq_getElem?_getD, List.getElem?_append_left h0,
        List.getElem?_eq_getElem h0]
      rfl
    rw [hget, if_pos ((mem_blanks_iff _).2 (hpre _ (List.getElem_mem h0)))]
    rfl
  | succ i ih =>
    intro hi
    rw [lastNotOfFrom_step]
    have hget : (pre ++ l3).getD (i + 1) (Char.ofNat 0) = pre[i + 1] := by
      rw [List.getD_eq_getElem?_getD, List.getElem?_append_left hi,
        List.getElem?_eq_getElem hi]
      rfl
    rw [hget, if_pos ((mem_blanks_iff _).2 (hpre _ (List.getElem_mem hi))),
      if_neg (by omega)]
    exact ih (by omega)

/-- The part of the loop body after `comment_pos`: when the search for the end
starts at the last character of the non-empty text `pre` before the comment,
the body pushes that text trimmed, or skips the line when nothing is left. -/
theorem configLine_trim (pre suffix : std_string) (pos : Nat) (hpre : pre ≠ [])
    (hlen : (pre ++ suffix).length < npos)
    (hpos : min pos ((pre ++ suffix).length - 1) = pre.length - 1) :
    (if (pre ++ suffix).find_last_not_of [Char.ofNat 32, Char.ofNat 9] pos = npos then
        LineResult.skipped
      else if (pre ++ suffix).find_first_not_of [Char.ofNat 32, Char.ofNat 9] = npos then
        LineResult.skipped
      else
        match (pre ++ suffix).substr
          ((pre ++ suffix).find_first_not_of [Char.ofNat 32, Char.ofNat 9])
          ((((pre ++ suffix).find_last_not_of [Char.ofNat 32, Char.ofNat 9] pos + 2 ^ 64 -
            (pre ++ suffix).find_first_not_of [Char.ofNat 32, Char.ofNat 9]) % 2 ^ 64 + 1)
            % 2 ^ 64) with
        | none => LineResult.thrown
        | some arg => LineResult.pushed arg) =
      if (pre.dropWhile isBlank).rdropWhile isBlank = [] then LineResult.skipped
      else LineResult.pushed ((pre.dropWhile isBlank).rdropWhile isBlank) := by
  have hprelen : 0 < pre.length := List.length_pos.2 hpre
  have hline0 : (pre ++ suffix).length ≠ 0 := by
    rw [List.length_append]; omega
  have hnpos : npos = 18446744073709551615 := by norm_num [npos]
  rcases trim_decompose pre with ⟨hall, htrim⟩ | ⟨lead, body, trail, x, hsplit, hlead, htrail, hx,
    hhead, htrim⟩
  · have hend : (pre ++ suffix).find_last_not_of [Char.ofNat 32, Char.ofNat 9] pos = npos := by
      unfold std_string.find_last_not_of
      rw [if_neg hline0, hpos]
      exact lastNotOfFrom_blank pre suffix hall (pre.length - 1) (by omega)
    rw [if_pos hend, if_pos htrim]
  · have hline : pre ++ suffix = (lead ++ body) ++ x :: (trail ++ suffix) := by
      rw [hsplit]; simp
    have hprel : pre.length = lead.length + body.length + 1 + trail.length := by
      rw [hsplit]; simp; omega
    have hlinel : (pre ++ suffix).length =
        lead.length + body.length + 1 + trail.length + suffix.length := by
      rw [List.length_append, hprel]
    have hend : (pre ++ suffix).find_last_not_of [Char.ofNat 32, Char.ofNat 9] pos =
        lead.length + body.length := by
      unfold std_string.find_last_not_of
      rw [if_neg hline0, hpos, hline]
      have h := lastNotOfFrom_core (lead ++ body) x trail suffix hx htrail trail.length
        (Nat.le_refl _)
      have hidx : pre.length - 1 = (lead ++ body).length + trail.length := by
        rw [hprel, List.length_append]; omega
      rw [hidx, h, List.length_append]
    obtain ⟨y, rest, hyrest⟩ : ∃ y rest, body ++ [x] = y :: rest := by
      cases body with
      | nil => exact ⟨x, [], rfl⟩
      | cons b bs => exact ⟨b, bs ++ [x], rfl⟩
    have hy : isBlank y = false := hhead y (by rw [hyrest]; rfl)
    have hbegin : (pre ++ suffix).find_first_not_of [Char.ofNat 32, Char.ofNat 9] =
        lead.length := by
      unfold std_string.find_first_not_of
      have hl2 : pre ++ suffix = lead ++ y :: (rest ++ (trail ++ suffix)) := by
        rw [hsplit, hyrest]; simp
      rw [hl2, firstNotOfFrom_lead lead y _ hlead hy 0]
      omega
    have hcount : ((lead.length + body.length + 2 ^ 64 - lead.length) % 2 ^ 64 + 1) % 2 ^ 64 =
        body.length + 1 := by
      rw [hlinel, hnpos] at hlen
      norm_num
      omega
    have hsub : (pre ++ suffix).substr lead.length (body.length + 1) = some (body ++ [x]) := by
      unfold std_string.substr
      rw [if_neg (by rw [hlinel]; omega)]
      have hl3 : pre ++ suffix = lead ++ ((body ++ [x]) ++ (trail ++ suffix)) := by
        rw [hsplit]; simp
      rw [hl3, List.drop_left]
      have : body.length + 1 = (body ++ [x]).length := by simp
      rw [this, List.take_left]
    have hne1 : lead.length + body.length ≠ npos := by
      rw [hlinel] at hlen; omega
    have hne2 : lead.length ≠ npos := by
      rw [hlinel] at hlen; omega
    rw [hend, hbegin, if_neg hne1, if_neg hne2, hcount, hsub, htrim, if_neg (by simp)]

/-- The loop body follows the line rule: on a line of a length that a
`std::string` can have, it never throws, it pushes the argument that the rule
gives, and it skips the line when the rule gives none. -/
theorem configLine_eq_rule (line : std_string) (hlen : line.length < npos) :
    configLine line =
      match configLineRule line with
      | none => LineResult.skipped
      | some arg => LineResult.pushed arg := by
  have hnpos : npos = 18446744073709551615 := by norm_num [npos]
  have hrule : (match configLineRule line with
      | none => LineResult.skipped
      | some arg => LineResult.pushed arg) =
      if ((line.takeWhile fun c => c != Char.ofNat 35).dropWhile isBlank).rdropWhile isBlank = []
      then LineResult.skipped
      else LineResult.pushed
        (((line.takeWhile fun c => c != Char.ofNat 35).dropWhile isBlank).rdropWhile isBlank) := by
    unfold configLineRule
    simp only []
    split_ifs <;> rfl
  rw [hrule]
  have hsplit := List.takeWhile_append_dropWhile (fun c => c != Char.ofNat 35) line
  have hfind := findFrom_eq (Char.ofNat 35) line 0
  unfold configLine
  simp only []
  unfold std_string.find
  rw [hfind]
  by_cases hmem : Char.ofNat 35 ∈ line
  · rw [if_pos hmem, Nat.zero_add]
    by_cases hzero : (line.takeWhile fun c => c != Char.ofNat 35).length = 0
    · rw [if_pos hzero, List.length_eq_zero.1 hzero]
      rfl
    · rw [if_neg hzero]
      have hpre : (line.takeWhile fun c => c != Char.ofNat 35) ≠ [] :=
        fun h => hzero (by rw [h]; rfl)
      have hle : (line.takeWhile fun c => c != Char.ofNat 35).length ≤ line.length := by
        conv_rhs => rw [← hsplit]
        rw [List.length_append]; omega
      have h := configLine_trim (line.takeWhile fun c => c != Char.ofNat 35)
        (line.dropWhile fun c => c != Char.ofNat 35)
        (((line.takeWhile fun c => c != Char.ofNat 35).length + 2 ^ 64 - 1) % 2 ^ 64) hpre
        (by rw [hsplit]; exact hlen)
        (by
          rw [hsplit]
          rw [hnpos] at hlen
          norm_num
          omega)
      rw [hsplit] at h
      exact h
  · rw [if_neg hmem]
    have hself : (line.takeWhile fun c => c != Char.ofNat 35) = line := by
      rw [List.takeWhile_eq_self_iff]
      intro c hc
      simp only [bne_iff_ne, ne_eq]
      intro h
      exact hmem (h ▸ hc)
    rw [hself, if_neg (by rw [hnpos]; decide)]
    by_cases hnil : line = []
    · subst hnil
      decide
    · have h := configLine_trim line [] ((npos + 2 ^ 64 - 1) % 2 ^ 64) hnil
        (by rw [List.append_nil]; exact hlen)
        (by
          rw [List.append_nil]
          rw [hnpos] at hlen ⊢
          norm_num
          omega)
      rw [List.append_nil] at h
      exact h

/-- The config-file loop pushes, in order, the arguments that the line rule
gives for the lines read. -/
theorem readConfig_eq_rule (lines : List std_string) :
    ∀ args : List std_string, (∀ line ∈ lines, line.length < npos) →
      readConfig args lines = some (args ++ lines.filterMap configLineRule) := by
  induction lines with
  | nil => intro args _; simp [readConfig]
  | cons line rest ih =>
    intro args hlen
    have h1 := configLine_eq_rule line (hlen line (List.mem_cons_self line rest))
    have hrest : ∀ l ∈ rest, l.length < npos := fun l hl => hlen l (List.mem_cons_of_mem line hl)
    cases hr : configLineRule line with
    | none =>
      rw [hr] at h1
      simp only [readConfig, h1, List.filterMap_cons, hr]
      exact ih args hrest
    | some arg =>
      rw [hr] at h1
      simp only [readConfig, h1, List.filterMap_cons, hr]
      rw [ih (args ++ [arg]) hrest]
      simp

/-- An argument that the line rule gives is not empty, has no `#`, and
neither begins nor ends with a space or a tab. -/
theorem configLineRule_shape (line arg : std_string) (h : configLineRule line = some arg) :
    arg ≠ [] ∧ Char.ofNat 35 ∉ arg ∧
    (∀ c, arg.head? = some c → isBlank c = false) ∧
    (∀ c, arg.getLast? = some c → isBlank c = false) := by
  unfold configLineRule at h
  simp only [] at h
  split_ifs at h with hnil
  have harg := Option.some.inj h
  rcases trim_decompose (line.takeWhile fun c => c != Char.ofNat 35) with
    ⟨_, htrim⟩ | ⟨lead, body, trail, x, hsplit, _, _, hx, hhead, htrim⟩
  · exact absurd htrim hnil
  · rw [htrim] at harg
    subst harg
    refine ⟨by simp, ?_, hhead, ?_⟩
    · intro hmem
      have hin : Char.ofNat 35 ∈ (line.takeWhile fun c => c != Char.ofNat 35) := by
        rw [hsplit]
        simp only [List.mem_append]
        exact Or.inl (Or.inr (by simpa using hmem))
      have := List.mem_takeWhile_imp hin
      simp at this
    · intro c hc
      rw [List.getLast?_concat] at hc
      rw [← Option.some.inj hc]
      exact hx

/-- C12 (config-file line rule). For contents of `config.txt` whose lines have
a length that a `std::string` can have: `main` completes the config-file loop
and hands to the parser, in order, one argument for each line for which the
text before its first `#` (the whole line if it has none), with leading and
trailing spaces and tabs removed, is not empty, namely that text, and nothing
for any other line; after these come `argv[1]` to `argv[argc - 1]` in their
order. Every argument that a line contributes is non-empty, contains no `#`,
and neither begins nor ends with a space or a tab. -/
theorem config_line_rule (configFile : List Char) (argv : List std_string)
    (hlen : ∀ line ∈ getlines [] configFile, line.length < npos) :
    mainArgs configFile argv =
      some ((getlines [] configFile).filterMap configLineRule ++ argv.drop 1) ∧
    (∀ line ∈ getlines [] configFile,
      configLine line =
        match configLineRule line with
        | none => LineResult.skipped
        | some arg => LineResult.pushed arg) ∧
    (∀ line ∈ getlines [] configFile, ∀ arg, configLine line = LineResult.pushed arg →
      arg ≠ [] ∧ Char.ofNat 35 ∉ arg ∧
      (∀ c, arg.head? = some c → isBlank c = false) ∧
      (∀ c, arg.getLast? = some c → isBlank c = false)) := by
  refine ⟨?_, ?_, ?_⟩
  · simp [mainArgs, readConfig_eq_rule _ [] hlen]
  · intro line hline
    exact configLine_eq_rule line (hlen line hline)
  · intro line hline arg harg
    have h := configLine_eq_rule line (hlen line hline)
    rw [harg] at h
    cases hr : configLineRule line with
    | none => rw [hr] at h; cases h
    | some a =>
      rw [hr] at h
      have : arg = a := by injection h
      subst this
      exact configLineRule_shape line arg hr

/-- C12 at concrete inputs: a config file with an option followed by a
comment, an empty line, a comment line, a line of blanks before a comment, and
an indented option, read before the command line `feeder --tps 10`. -/
theorem config_line_rule_witness :
    mainArgs
      ("--tps 50  # rate".data ++ [Char.ofNat 10, Char.ofNat 10] ++ "# only a comment".data ++
        [Char.ofNat 10, Char.ofNat 32, Char.ofNat 9] ++ "#x".data ++
        [Char.ofNat 10, Char.ofNat 9] ++ "--universe raw ".data)
      ["feeder".data, "--tps".data, "10".data] =
      some ((getlines []
        ("--tps 50  # rate".data ++ [Char.ofNat 10, Char.ofNat 10] ++ "# only a comment".data ++
          [Char.ofNat 10, Char.ofNat 32, Char.ofNat 9] ++ "#x".data ++
          [Char.ofNat 10, Char.ofNat 9] ++ "--universe raw ".data)).filterMap configLineRule ++
        (["feeder".data, "--tps".data, "10".data] : List std_string).drop 1) ∧
    mainArgs
      ("--tps 50  # rate".data ++ [Char.ofNat 10, Char.ofNat 10] ++ "# only a comment".data ++
        [Char.ofNat 10, Char.ofNat 32, Char.ofNat 9] ++ "#x".data ++
        [Char.ofNat 10, Char.ofNat 9] ++ "--universe raw ".data)
      ["feeder".data, "--tps".data, "10".data] =
      some ["--tps 50".data, "--universe raw".data, "--tps".data, "10".data] :=
  ⟨(config_line_rule
      ("--tps 50  # rate".data ++ [Char.ofNat 10, Char.ofNat 10] ++ "# only a comment".data ++
        [Char.ofNat 10, Char.ofNat 32, Char.ofNat 9] ++ "#x".data ++
        [Char.ofNat 10, Char.ofNat 9] ++ "--universe raw ".data)
      ["feeder".data, "--tps".data, "10".data] (by decide)).1,
   by decide⟩

/-! ## Invariants of the tracker record -/

/-- C13 (status before pose). For a record that is not in the valid state and
a valid sample with `just_connected = false` of which at least one of the seven
scalars differs (operator `!=`) from the stored one, `Update` sends exactly two
messages: first the status `OK`, then the position message carrying the
sample; afterwards `current_valid` is true and the stored pose is the sample. -/
theorem update_status_before_pose (U : MatrixUtils) (t : Tracker) (pose : TrackedDevicePose_t)
    (hv : t.current_valid = false) (hp : pose.bPoseIsValid = true)
    (hdiff :
      double_ne t.current_rotation.w (U.GetRotation pose.mDeviceToAbsoluteTracking).w = true ∨
      double_ne t.current_rotation.x (U.GetRotation pose.mDeviceToAbsoluteTracking).x = true ∨
      double_ne t.current_rotation.y (U.GetRotation pose.mDeviceToAbsoluteTracking).y = true ∨
      double_ne t.current_rotation.z (U.GetRotation pose.mDeviceToAbsoluteTracking).z = true ∨
      float_ne t.current_position.v0 (U.GetPosition pose.mDeviceToAbsoluteTracking).v0 = true ∨
      float_ne t.current_position.v1 (U.GetPosition pose.mDeviceToAbsoluteTracking).v1 = true ∨
      float_ne t.current_position.v2 (U.GetPosition pose.mDeviceToAbsoluteTracking).v2 = true) :
    t.Update U pose false =
      ({ current_rotation := U.GetRotation pose.mDeviceToAbsoluteTracking
         current_position := U.GetPosition pose.mDeviceToAbsoluteTracking
         index := t.index
         current_valid := true },
       [ProtobufMessage.tracker_status
          { status := TrackerStatus_Status.TrackerStatus_Status_OK, tracker_id := t.index },
        ProtobufMessage.position
          { x := (U.GetPosition pose.mDeviceToAbsoluteTracking).v0
            y := (U.GetPosition pose.mDeviceToAbsoluteTracking).v1
            z := (U.GetPosition pose.mDeviceToAbsoluteTracking).v2
            qw := (U.GetRotation pose.mDeviceToAbsoluteTracking).w
            qx := (U.GetRotation pose.mDeviceToAbsoluteTracking).x
            qy := (U.GetRotation pose.mDeviceToAbsoluteTracking).y
            qz := (U.GetRotation pose.mDeviceToAbsoluteTracking).z
            tracker_id := t.index
            data_source :=
              if pose.eTrackingResult = ETrackingResult.TrackingResult_Fallback_RotationOnly
              then Position_DataSource.Position_DataSource_IMU
              else Position_DataSource.Position_DataSource_FULL }]) := by
  have hc : (double_ne t.current_rotation.w (U.GetRotation pose.mDeviceToAbsoluteTracking).w ||
      double_ne t.current_rotation.x (U.GetRotation pose.mDeviceToAbsoluteTracking).x ||
      double_ne t.current_rotation.y (U.GetRotation pose.mDeviceToAbsoluteTracking).y ||
      double_ne t.current_rotation.z (U.GetRotation pose.mDeviceToAbsoluteTracking).z ||
      float_ne t.current_position.v0 (U.GetPosition pose.mDeviceToAbsoluteTracking).v0 ||
      float_ne t.current_position.v1 (U.GetPosition pose.mDeviceToAbsoluteTracking).v1 ||
      float_ne t.current_position.v2 (U.GetPosition pose.mDeviceToAbsoluteTracking).v2)
        = true := by
    simpa [Bool.or_eq_true, or_assoc] using hdiff
  simp [Tracker.Update, Tracker.UpdateValid, Tracker.UpdateStatus, Tracker.SendStatus, hv, hp, hc,
    Tracker.positionMessage]

/-- C13 at the concrete input of the scenario: the freshly announced tracker
of device 3 that receives the valid sample at `(1, 2, 3)` with rotation
`(1, 0, 0, 0)` sends `OK` and then the position message with those values. -/
theorem update_status_before_pose_witness :
    exampleAnnouncedTracker.current_valid = false ∧ exampleValidPose.bPoseIsValid = true ∧
    exampleAnnouncedTracker.Update exampleUtils exampleValidPose false =
      ({ current_rotation := ⟨0x3FF0000000000000, 0, 0, 0⟩
         current_position := ⟨0x3F800000, 0x40000000, 0x40400000⟩
         index := 3
         current_valid := true },
       [ProtobufMessage.tracker_status
          { status := TrackerStatus_Status.TrackerStatus_Status_OK, tracker_id := 3 },
        ProtobufMessage.position
          { x := 0x3F800000, y := 0x40000000, z := 0x40400000
            qw := 0x3FF0000000000000, qx := 0, qy := 0, qz := 0
            tracker_id := 3
            data_source := Position_DataSource.Position_DataSource_FULL }]) :=
  ⟨rfl, rfl,
   update_status_before_pose exampleUtils exampleAnnouncedTracker exampleValidPose rfl rfl
     (Or.inl (by decide))⟩

/-- C14 (state changes only with a transmission). For every record, sample and
value of `just_connected`: if `Update` sends no message the record is
unchanged; equivalently, if `current_valid`, the stored position or the stored
rotation changes, at least one message is sent in that call. -/
theorem update_silent_unchanged (U : MatrixUtils) (t : Tracker) (pose : TrackedDevicePose_t)
    (just_connected : Bool) :
    ((t.Update U pose just_connected).2 = [] → (t.Update U pose just_connected).1 = t) ∧
    (((t.Update U pose just_connected).1.current_valid ≠ t.current_valid ∨
      (t.Update U pose just_connected).1.current_position ≠ t.current_position ∨
      (t.Update U pose just_connected).1.current_rotation ≠ t.current_rotation) →
      (t.Update U pose just_connected).2 ≠ []) := by
  have h1 : (t.Update U pose just_connected).2 = [] → (t.Update U pose just_connected).1 = t := by
    cases hv : t.current_valid <;> cases hp : pose.bPoseIsValid <;> cases just_connected <;>
      cases hc : pose.bDeviceIsConnected <;>
      by_cases hr : pose.eTrackingResult = ETrackingResult.TrackingResult_Running_OutOfRange <;>
      simp [Tracker.Update, Tracker.UpdateValid, Tracker.UpdateStatus, Tracker.SendStatus,
        hv, hp, hc, hr] <;>
      split <;> simp_all
  refine ⟨h1, ?_⟩
  intro hchange hnil
  rw [h1 hnil] at hchange
  rcases hchange with h | h | h <;> exact h rfl

/-- C14 at a concrete input: the valid tracker that receives again the pose
it last sent sends nothing and is unchanged. -/
theorem update_silent_unchanged_witness :
    (exampleSentTracker.Update exampleUtils exampleValidPose false).2 = [] ∧
    (exampleSentTracker.Update exampleUtils exampleValidPose false).1 = exampleSentTracker :=
  ⟨by decide,
   (update_silent_unchanged exampleUtils exampleSentTracker exampleValidPose false).1
     (by decide)⟩

/-- The member `Update` keeps the stored index. -/
theorem update_index (U : MatrixUtils) (t : Tracker) (pose : TrackedDevicePose_t)
    (just_connected : Bool) : (t.Update U pose just_connected).1.index = t.index := by
  simp only [Tracker.Update, Tracker.UpdateValid, Tracker.UpdateStatus]
  split_ifs <;> rfl

/-- C15 (the index changes only by announcement). `Update` never changes the
stored index, for any sample and value of `just_connected`. `SetIndex` never
changes `current_valid` or the stored pose, and a call of `SetIndex` that
changes the stored index sends exactly one message, the announcement of the
new index. -/
theorem index_changes_only_by_announcement (U : MatrixUtils) (t : Tracker)
    (pose : TrackedDevicePose_t) (just_connected : Bool) (idx : TrackedDeviceIndex_t)
    (pos : BodyPosition) (get_name : Unit → String) (get_serial : Unit → Option String)
    (send_anyway : Bool) :
    (t.Update U pose just_connected).1.index = t.index ∧
    ((t.SetIndex idx pos get_name get_serial send_anyway).1.index ≠ t.index →
      (t.SetIndex idx pos get_name get_serial send_anyway).1.index = idx ∧
      (t.SetIndex idx pos get_name get_serial send_anyway).2 =
        [ProtobufMessage.tracker_added
          { tracker_id := idx, tracker_role := (positionIDs pos).toInt
            tracker_name := get_name (), tracker_serial := get_serial () }]) ∧
    (t.SetIndex idx pos get_name get_serial send_anyway).1.current_valid = t.current_valid ∧
    (t.SetIndex idx pos get_name get_serial send_anyway).1.current_position =
      t.current_position ∧
    (t.SetIndex idx pos get_name get_serial send_anyway).1.current_rotation =
      t.current_rotation := by
  refine ⟨update_index U t pose just_connected, ?_, ?_, ?_, ?_⟩
  · by_cases h : t.index = idx <;> cases send_anyway <;> simp [Tracker.SetIndex, h]
  all_goals
    by_cases h : t.index = idx <;> cases send_anyway <;> simp [Tracker.SetIndex, h]

/-- C15 at concrete inputs: announcing device 3 to a fresh tracker changes its
index and sends the announcement. -/
theorem index_changes_only_by_announcement_witness :
    (Tracker.new.SetIndex 3 BodyPosition.LeftFoot (fun _ => "ViveTracker") (fun _ => none)
        false).1.index = 3 ∧
    (Tracker.new.SetIndex 3 BodyPosition.LeftFoot (fun _ => "ViveTracker") (fun _ => none)
        false).2 =
      [ProtobufMessage.tracker_added
        { tracker_id := 3, tracker_role := (positionIDs BodyPosition.LeftFoot).toInt
          tracker_name := "ViveTracker", tracker_serial := none }] :=
  (index_changes_only_by_announcement exampleUtils Tracker.new exampleValidPose false 3
    BodyPosition.LeftFoot (fun _ => "ViveTracker") (fun _ => none) false).2.1 (by decide)

/-- C16, the code evaluated at the failing input. A tracker that holds index 3
and is announced again for index 3 with `send_anyway = true`, as after a
reconnect, prints the warning that its index changed from 3 to 3, and sends
the announcement; and the same call with `send_anyway = false` prints the
warning and sends nothing. -/
theorem setIndex_warns_on_same_index :
    exampleSentTracker.index = 3 ∧
    exampleSentTracker.SetIndexWarning 3 =
      ["Warning: Tracked Device Index changed from 3 to 3. Report this, because assumptions were incorrectly made."] ∧
    (exampleSentTracker.SetIndex 3 BodyPosition.LeftFoot (fun _ => "ViveTracker")
        (fun _ => none) true).2 =
      [ProtobufMessage.tracker_added
        { tracker_id := 3, tracker_role := 2
          tracker_name := "ViveTracker", tracker_serial := none }] ∧
    (exampleSentTracker.SetIndex 3 BodyPosition.LeftFoot (fun _ => "ViveTracker")
        (fun _ => none) false).2 = [] ∧
    Tracker.new.SetIndexWarning 3 = [] := by
  decide

/-- One call keeps the property that a record which is not in the valid state
has an all-zero stored pose. -/
theorem call_keeps_cleared (U : MatrixUtils) (t : Tracker) (c : TrackerCall)
    (h : t.current_valid = false →
      t.current_position = HmdVector3_t.zero ∧ t.current_rotation = HmdQuaternion_t.zero) :
    (t.call U c).1.current_valid = false →
      (t.call U c).1.current_position = HmdVector3_t.zero ∧
      (t.call U c).1.current_rotation = HmdQuaternion_t.zero := by
  cases c with
  | Update pose jc =>
    cases hv : t.current_valid <;> cases hp : pose.bPoseIsValid <;> cases jc <;>
      cases hc : pose.bDeviceIsConnected <;>
      by_cases hr : pose.eTrackingResult = ETrackingResult.TrackingResult_Running_OutOfRange <;>
      simp [Tracker.call, Tracker.Update, Tracker.UpdateValid, Tracker.UpdateStatus,
        Tracker.SendStatus, hv, hp, hc, hr] <;>
      (try split) <;>
      first
        | exact h
        | exact h hv
        | simp_all
  | SetIndex idx pos get_name get_serial send_anyway =>
    by_cases hi : t.index = idx <;> cases send_anyway <;>
      simpa [Tracker.call, Tracker.SetIndex, hi] using h

/-- A sequence of calls keeps the property that a record which is not in the
valid state has an all-zero stored pose. -/
theorem calls_keep_cleared (U : MatrixUtils) (cs : List TrackerCall) :
    ∀ t : Tracker,
      (t.current_valid = false →
        t.current_position = HmdVector3_t.zero ∧ t.current_rotation = HmdQuaternion_t.zero) →
      (Tracker.calls U t cs).1.current_valid = false →
        (Tracker.calls U t cs).1.current_position = HmdVector3_t.zero ∧
        (Tracker.calls U t cs).1.current_rotation = HmdQuaternion_t.zero := by
  induction cs with
  | nil => intro t h; exact h
  | cons c rest ih =>
    intro t h
    exact ih (t.call U c).1 (call_keeps_cleared U t c h)

/-- C18 (reachable-state invariant). In every state reached from the fresh
record by a sequence of completed `Update` and `SetIndex` calls,
`current_valid = false` implies that the stored position and rotation are all
zero. Consequently, whatever was sent before, `Update` on such a record that is
not in the valid state does what it does on the record with the same index
and an all-zero stored pose: the sample is compared against the zero pose. -/
theorem invalid_record_pose_zero (U : MatrixUtils) (cs : List TrackerCall) :
    ((Tracker.calls U Tracker.new cs).1.current_valid = false →
      (Tracker.calls U Tracker.new cs).1.current_position = ⟨0, 0, 0⟩ ∧
      (Tracker.calls U Tracker.new cs).1.current_rotation = ⟨0, 0, 0, 0⟩) ∧
    (∀ (pose : TrackedDevicePose_t) (just_connected : Bool),
      (Tracker.calls U Tracker.new cs).1.current_valid = false →
      (Tracker.calls U Tracker.new cs).1.Update U pose just_connected =
        Tracker.Update U
          { current_rotation := ⟨0, 0, 0, 0⟩, current_position := ⟨0, 0, 0⟩
            index := (Tracker.calls U Tracker.new cs).1.index, current_valid := false }
          pose just_connected) := by
  have h := calls_keep_cleared U cs Tracker.new (fun _ => ⟨rfl, rfl⟩)
  refine ⟨h, ?_⟩
  intro pose jc hv
  have hz := h hv
  have ht : (Tracker.calls U Tracker.new cs).1 =
      { current_rotation := ⟨0, 0, 0, 0⟩, current_position := ⟨0, 0, 0⟩
        index := (Tracker.calls U Tracker.new cs).1.index, current_valid := false } := by
    cases hT : (Tracker.calls U Tracker.new cs).1 with
    | mk rot p idx v =>
      rw [hT] at hz hv
      simp only at hz hv
      rw [hz.1, hz.2, hv]
      rfl
  rw [← ht]

/-- C18 at a concrete sequence: a fresh tracker announced for device 3, fed
the valid sample and then the sample of a lost device, is not in the valid
state and its stored pose is all zero. -/
theorem invalid_record_pose_zero_witness :
    (Tracker.calls exampleUtils Tracker.new
      [TrackerCall.SetIndex 3 BodyPosition.LeftFoot (fun _ => "ViveTracker") (fun _ => none)
        false,
       TrackerCall.Update exampleValidPose false,
       TrackerCall.Update exampleLostPose false]).1.current_position = ⟨0, 0, 0⟩ ∧
    (Tracker.calls exampleUtils Tracker.new
      [TrackerCall.SetIndex 3 BodyPosition.LeftFoot (fun _ => "ViveTracker") (fun _ => none)
        false,
       TrackerCall.Update exampleValidPose false,
       TrackerCall.Update exampleLostPose false]).1.current_rotation = ⟨0, 0, 0, 0⟩ :=
  (invalid_record_pose_zero exampleUtils
    [TrackerCall.SetIndex 3 BodyPosition.LeftFoot (fun _ => "ViveTracker") (fun _ => none)
      false,
     TrackerCall.Update exampleValidPose false,
     TrackerCall.Update exampleLostPose false]).1 (by decide)

/-- The last announced id over two message lists in sequence. -/
theorem lastAnnouncedFrom_append (l1 l2 : List ProtobufMessage) :
    ∀ d, lastAnnouncedFrom d (l1 ++ l2) = lastAnnouncedFrom (lastAnnouncedFrom d l1) l2 := by
  induction l1 with
  | nil => intro d; rfl
  | cons m rest ih =>
    intro d
    cases m <;> simp [lastAnnouncedFrom, ih]

/-- Every message of `Update` is a status or a position message carrying the
stored index. -/
theorem update_messages_carry_index (U : MatrixUtils) (t : Tracker)
    (pose : TrackedDevicePose_t) (just_connected : Bool) :
    ∀ m ∈ (t.Update U pose just_connected).2,
      (∃ st, m = ProtobufMessage.tracker_status { status := st, tracker_id := t.index }) ∨
      (∃ p, m = ProtobufMessage.position p ∧ p.tracker_id = t.index) := by
  intro m hm
  simp only [Tracker.Update, Tracker.UpdateValid, Tracker.UpdateStatus, Tracker.SendStatus,
    Tracker.positionMessage] at hm
  split_ifs at hm <;> simp at hm <;>
    first
      | (rcases hm with h | h | h <;> subst h <;> simp)
      | (rcases hm with h | h <;> subst h <;> simp)
      | (subst hm; simp)

/-- One call keeps the stored index equal to the id last announced. -/
theorem call_last_announced (U : MatrixUtils) (t : Tracker) (c : TrackerCall) :
    lastAnnouncedFrom t.index (t.call U c).2 = (t.call U c).1.index := by
  cases c with
  | Update pose jc =>
    have hidx := update_index U t pose jc
    have hmsgs := update_messages_carry_index U t pose jc
    simp only [Tracker.call]
    rw [hidx]
    generalize (t.Update U pose jc).2 = l at hmsgs
    induction l with
    | nil => rfl
    | cons m rest ih =>
      have hrest := ih (fun x hx => hmsgs x (List.mem_cons_of_mem m hx))
      rcases hmsgs m (List.mem_cons_self m rest) with ⟨st, h⟩ | ⟨p, h, _⟩ <;>
        (subst h; simpa [lastAnnouncedFrom] using hrest)
  | SetIndex idx pos get_name get_serial send_anyway =>
    by_cases hi : t.index = idx <;> cases send_anyway <;>
      simp [Tracker.call, Tracker.SetIndex, hi, lastAnnouncedFrom]

/-- A sequence of calls keeps the stored index equal to the id last announced. -/
theorem calls_last_announced (U : MatrixUtils) (cs : List TrackerCall) :
    ∀ t : Tracker,
      lastAnnouncedFrom t.index (Tracker.calls U t cs).2 = (Tracker.calls U t cs).1.index := by
  induction cs with
  | nil => intro t; rfl
  | cons c rest ih =>
    intro t
    simp only [Tracker.calls]
    rw [lastAnnouncedFrom_append, call_last_announced, ih]

/-- C19 (tracker-id consistency). Every message that `Update` sends is a
status or a position message whose tracker id is the stored index of the
record at the time of the call; and after any sequence of `Update` and
`SetIndex` calls on a fresh record, that index is the tracker id of the most
recent announcement sent for the record, or `k_unTrackedDeviceIndexInvalid` if
none was ever sent. -/
theorem tracker_id_consistent (U : MatrixUtils) (cs : List TrackerCall)
    (t : Tracker) (pose : TrackedDevicePose_t) (just_connected : Bool) :
    (∀ m ∈ (t.Update U pose just_connected).2,
      (∃ st, m = ProtobufMessage.tracker_status { status := st, tracker_id := t.index }) ∨
      (∃ p, m = ProtobufMessage.position p ∧ p.tracker_id = t.index)) ∧
    (Tracker.calls U Tracker.new cs).1.index =
      lastAnnouncedFrom k_unTrackedDeviceIndexInvalid (Tracker.calls U Tracker.new cs).2 ∧
    (∀ m ∈ ((Tracker.calls U Tracker.new cs).1.Update U pose just_connected).2,
      (∃ st, m = ProtobufMessage.tracker_status
        { status := st
          tracker_id := lastAnnouncedFrom k_unTrackedDeviceIndexInvalid
            (Tracker.calls U Tracker.new cs).2 }) ∨
      (∃ p, m = ProtobufMessage.position p ∧
        p.tracker_id = lastAnnouncedFrom k_unTrackedDeviceIndexInvalid
          (Tracker.calls U Tracker.new cs).2)) := by
  have h := calls_last_announced U cs Tracker.new
  refine ⟨update_messages_carry_index U t pose just_connected, h.symm, ?_⟩
  have h2 : lastAnnouncedFrom k_unTrackedDeviceIndexInvalid (Tracker.calls U Tracker.new cs).2 =
      (Tracker.calls U Tracker.new cs).1.index := h
  rw [h2]
  exact update_messages_carry_index U _ pose just_connected

/-- C20, the code evaluated at the failing input. The action of `LeftFoot` is
active with origin 1005, which resolves without error to the index
`k_unTrackedDeviceIndexInvalid`. `UpdateValueHandles` stores the origin and
announces nothing; in the following `Tick` the stored origin resolves, the
index is not below `k_unMaxTrackedDeviceCount`, and the read of `device_poses`
at that index has no defined result. A role whose stored origin is the invalid
handle is skipped without any message. -/
theorem tick_reads_past_device_poses :
    (OpenVRStuff.UpdateValueHandles exampleSystem exampleStrayInput OpenVRStuff.new
      exampleActions false).1.value_handles BodyPosition.LeftFoot = 1005 ∧
    (OpenVRStuff.UpdateValueHandles exampleSystem exampleStrayInput OpenVRStuff.new
      exampleActions false).2 = [] ∧
    OpenVRStuff.GetIndex exampleStrayInput 1005 = some k_unTrackedDeviceIndexInvalid ∧
    ¬ (k_unTrackedDeviceIndexInvalid < k_unMaxTrackedDeviceCount) ∧
    (OpenVRStuff.TickBody exampleUtils exampleSystem exampleStrayInput false
      BodyPosition.LeftFoot
      (OpenVRStuff.UpdateValueHandles exampleSystem exampleStrayInput OpenVRStuff.new
        exampleActions false).1).isNone = true ∧
    (OpenVRStuff.Tick exampleUtils exampleSystem exampleStrayInput
      (OpenVRStuff.UpdateValueHandles exampleSystem exampleStrayInput OpenVRStuff.new
        exampleActions false).1 false).isNone = true ∧
    (OpenVRStuff.TickBody exampleUtils exampleSystem exampleStrayInput false
      BodyPosition.Head
      (OpenVRStuff.UpdateValueHandles exampleSystem exampleStrayInput OpenVRStuff.new
        exampleActions false).1).map (fun r => r.2) = some [] := by
  decide

/-! ## The role tables -/

/-- The external ids of the thirteen roles are pairwise different and none is 0. -/
theorem positionIDs_toInt_injective :
    (∀ pos pos2 : BodyPosition,
      (positionIDs pos).toInt = (positionIDs pos2).toInt → pos = pos2) ∧
    (∀ pos : BodyPosition, (positionIDs pos).toInt ≠ 0) := by
  decide

/-- C21 (role tables). The map from the thirteen roles to `positionIDs[role]`
is injective and never yields `SlimeVRPosition::None`, whose value is 0; the
lookup `positionIDs[(int)pos]` always falls inside the table; so the
announcements that `SetIndex` sends for two different roles carry different
tracker roles, none of them 0. The tables `positionIDs`, `positionNames` and
`actions` have exactly `BodyPosition_Count = 13` entries each. -/
theorem role_tables_well_formed :
    Function.Injective positionIDs ∧
    (∀ pos : BodyPosition, positionIDs pos ≠ SlimeVRPosition.None) ∧
    SlimeVRPosition.None.toInt = 0 ∧
    (∀ pos : BodyPosition, positionIDsTable[pos.val]? = some (positionIDs pos)) ∧
    (∀ (t t2 : Tracker) (d d2 : TrackedDeviceIndex_t) (pos pos2 : BodyPosition)
      (get_name get_name2 : Unit → String) (get_serial get_serial2 : Unit → Option String)
      (send_anyway send_anyway2 : Bool) (a a2 : TrackerAdded),
      pos ≠ pos2 →
      ProtobufMessage.tracker_added a ∈
        (t.SetIndex d pos get_name get_serial send_anyway).2 →
      ProtobufMessage.tracker_added a2 ∈
        (t2.SetIndex d2 pos2 get_name2 get_serial2 send_anyway2).2 →
      a.tracker_role ≠ a2.tracker_role ∧ a.tracker_role ≠ 0) ∧
    BodyPosition_Count = 13 ∧
    positionIDsTable.length = BodyPosition_Count ∧
    positionNamesTable.length = BodyPosition_Count ∧
    actionsTable.length = BodyPosition_Count := by
  have hinj := positionIDs_toInt_injective
  refine ⟨?_, ?_, rfl, by decide, ?_, rfl, rfl, rfl, rfl⟩
  · intro pos pos2 h
    exact hinj.1 pos pos2 (by rw [h])
  · intro pos h
    apply hinj.2 pos
    rw [h]
    rfl
  · intro t t2 d d2 pos pos2 get_name get_name2 get_serial get_serial2 sa sa2 a a2 hne ha ha2
    have hrole : ∀ (t : Tracker) (d : TrackedDeviceIndex_t) (pos : BodyPosition)
        (gn : Unit → String) (gs : Unit → Option String) (sa : Bool) (a : TrackerAdded),
        ProtobufMessage.tracker_added a ∈ (t.SetIndex d pos gn gs sa).2 →
        a.tracker_role = (positionIDs pos).toInt := by
      intro t d pos gn gs sa a h
      unfold Tracker.SetIndex at h
      split_ifs at h
      · simp only [List.mem_singleton] at h
        injection h with h
        rw [h]
      · simp at h
    rw [hrole t d pos get_name get_serial sa a ha,
      hrole t2 d2 pos2 get_name2 get_serial2 sa2 a2 ha2]
    exact ⟨fun h => hne (hinj.1 pos pos2 h), hinj.2 pos⟩

end SlimeVRFeeder
